import Mathlib

/-!
Shallow embedding of the analytics aggregation core of `app/services/analyze.py`
(StoreScout).  Python floats are modelled as `ℚ`, `datetime` instants as `Int`
(seconds since the Unix epoch, UTC), absent/unparsable optional values as
`none`.  `round(x, n)` in CPython rounds half to even; it is modelled exactly
on the rational value.  Each definition's doc comment cites the source lines
it embeds.
-/

set_option maxRecDepth 4000

/-- Model of Python `round(x)` (round half to even) on the exact rational
value of `x`.  Used by `round`, `round(x, 1)`, `round(x, 2)` call sites. -/
def roundHalfEven (x : ℚ) : Int :=
  let f : Int := Int.floor x
  let r : ℚ := x - f
  if r < 1/2 then f
  else if 1/2 < r then f + 1
  else if f % 2 = 0 then f else f + 1

/-- Model of Python `round(x, 2)`. -/
def round2 (x : ℚ) : ℚ := (roundHalfEven (x * 100) : ℚ) / 100

/-- Model of Python `round(x, 1)`. -/
def round1 (x : ℚ) : ℚ := (roundHalfEven (x * 10) : ℚ) / 10

/-- `pct` (analyze.py lines 43-44):
`round((n / d * 100.0), 2) if d else 0.0`. -/
def pct (n d : Nat) : ℚ := if d ≠ 0 then round2 ((n : ℚ) / (d : ℚ) * 100) else 0

/-- `clamp` (analyze.py lines 693-694) with its default bounds `0.0`/`100.0`:
`max(lo, min(hi, x))`. -/
def clamp (x : ℚ) : ℚ := max 0 (min 100 x)

/-- Stable insertion into an ascending-sorted list; auxiliary for the model of
Python's `sorted` on numbers (used by `statistics.median`). -/
def insertLe (x : ℚ) : List ℚ → List ℚ
  | [] => [x]
  | y :: ys => if x ≤ y then x :: y :: ys else y :: insertLe x ys

/-- Ascending sort of rationals (stable), modelling Python `sorted`. -/
def sortLe (l : List ℚ) : List ℚ := l.foldr insertLe []

/-- Model of `statistics.median` on a list of numbers: sort ascending, take the
middle element (odd length) or the mean of the two middle elements (even
length); `none` on the empty list (where CPython raises, every call site
guards against it). -/
def pymedian (xs : List ℚ) : Option ℚ :=
  let s := sortLe xs
  let n := s.length
  if n = 0 then none
  else if n % 2 = 1 then some (s.getD (n / 2) 0)
  else some ((s.getD (n / 2 - 1) 0 + s.getD (n / 2) 0) / 2)

/-- `median_or_none` (analyze.py lines 46-48): drop `None` entries, then
`round(median(xs), 2)`, or `None` when nothing remains. -/
def median_or_none (xs : List (Option ℚ)) : Option ℚ :=
  match pymedian (xs.filterMap id) with
  | none => none
  | some m => some (round2 m)

/-- Model of Python `min(l)` over a nonempty list (`none` for `[]`). -/
def list_min (l : List ℚ) : Option ℚ :=
  match l with
  | [] => none
  | x :: xs => some (xs.foldl min x)

/-- Model of Python `max(l)` over a nonempty list (`none` for `[]`). -/
def list_max (l : List ℚ) : Option ℚ :=
  match l with
  | [] => none
  | x :: xs => some (xs.foldl max x)

/-- `bucket_day` / the `"day"` bucket key of `detect_bulk_update_spike`
(analyze.py lines 22-23, 150-151): `d.strftime("%Y-%m-%d")` on a UTC instant,
modelled as the UTC calendar-day number, i.e. floor division of the epoch
second count by 86400.  Distinct day numbers correspond exactly to distinct
`"%Y-%m-%d"` strings. -/
def bucketDay (t : Int) : Int := t.fdiv 86400

/-- One step of the scan modelling `Counter(...).most_common(1)[0]`: keep the
running maximum, replacing it only on a strictly larger count, so that on ties
the earliest-inserted key wins (CPython `most_common(1)` is
`max` over items in first-insertion order). -/
def mcStep (l : List Int) (acc : Option (Int × Nat)) (k : Int) : Option (Int × Nat) :=
  match acc with
  | none => some (k, l.count k)
  | some kc => if l.count k > kc.2 then some (k, l.count k) else acc

/-- Model of `Counter(buckets).most_common(1)[0]` (analyze.py lines 26-27):
the bucket key with the largest count, ties broken by first occurrence;
`none` only on the empty list. -/
def mostCommon1 (l : List Int) : Option (Int × Nat) := l.foldl (mcStep l) none

/-- `detect_bulk_update_spike` (analyze.py lines 10-32) with the `"day"`
bucket used by its only caller.  Returns `(is_bulk, dominant_bucket,
dominant_pct)` where `dominant_pct = round(100.0 * top_count / len(updates),
1)` and `is_bulk = dominant_pct >= 70.0 and len(updates) >= 30`. -/
def detect_bulk_update_spike (update_datetimes : List Int) : Bool × Option Int × ℚ :=
  if update_datetimes.isEmpty then (false, none, 0)
  else
    let buckets := update_datetimes.map bucketDay
    match mostCommon1 buckets with
    | none => (false, none, 0)
    | some tb =>
      let dominant_pct := round1 (100 * (tb.2 : ℚ) / (update_datetimes.length : ℚ))
      (if 70 ≤ dominant_pct ∧ 30 ≤ update_datetimes.length then true else false,
       some tb.1, dominant_pct)

/-- Count of the dominant day bucket among the given update instants (the
`top_count` of analyze.py line 27; `0` for no updates). -/
def topCount (u : List Int) : Nat :=
  match mostCommon1 (u.map bucketDay) with
  | some kc => kc.2
  | none => 0

/-- The unrounded dominant-bucket share `top_count / total * 100` that the
specification text describes (the code rounds it to one decimal before
comparing with the 70.0 threshold). -/
def dominant_share_raw (u : List Int) : ℚ := 100 * (topCount u : ℚ) / (u.length : ℚ)

/-- `GRACE_SECONDS` (analyze.py line 107): `6 * 3600`. -/
def GRACE_SECONDS : Int := 6 * 3600

/-- `meaningful_update_dt` (analyze.py lines 109-116), abstracted over the
already-parsed creation instant `cd` (`created_at` falling back to
`published_at`) and update instant `ud` (`updated_at`): no update instant
gives `none`; otherwise the update is dropped when a creation instant exists
and `abs((ud - cd).total_seconds()) <= GRACE_SECONDS`. -/
def meaningful_update_dt (cd ud : Option Int) : Option Int :=
  match ud with
  | none => none
  | some u =>
    match cd with
    | none => some u
    | some c => if |u - c| ≤ GRACE_SECONDS then none else some u

/-- The candidate "organic" update set of analyze.py line 158: all meaningful
updates whose day bucket differs from the dominant bucket (the unchanged list
when no dominant bucket exists). -/
def bulk_candidate (meaningful : List Int) : List Int :=
  match (detect_bulk_update_spike meaningful).2.1 with
  | some top => meaningful.filter (fun d => bucketDay d != top)
  | none => meaningful

/-- The organic-update selection of `compute_new_vs_old_and_updates`
(analyze.py lines 153-167): returns `(filtered_updates,
bulk_filter_applied)`.  When a bulk spike is flagged the dominant day is
filtered out only if at least 10 updates remain; otherwise the meaningful
updates are kept unfiltered and the applied flag stays `False`. -/
def organic_result (meaningful : List Int) : List Int × Bool :=
  match detect_bulk_update_spike meaningful with
  | (is_bulk, some top, _) =>
    if is_bulk then
      let candidate := meaningful.filter (fun d => bucketDay d != top)
      if 10 ≤ candidate.length then (candidate, true)
      else (meaningful, false)
    else (meaningful, false)
  | (_, none, _) => (meaningful, false)

/-- `bulk_update_flag` as stored in `update_activity` (analyze.py line 209)
and copied into the report's `comparisons.update_activity` (line 856):
`bool(is_bulk)`, independent of whether the dominant-day filter was applied. -/
def bulk_update_flag (meaningful : List Int) : Bool :=
  (detect_bulk_update_spike meaningful).1

/-- `compute_discount_pct` (analyze.py lines 295-300): `None` when either
input is missing; a rounded percentage when `compare_at_min > price_min` and
`compare_at_min > 0`; `None` otherwise.  (The code does not require
`price_min > 0`.) -/
def compute_discount_pct (price_min compare_at_min : Option ℚ) : Option ℚ :=
  match price_min, compare_at_min with
  | some pr, some ca =>
    if ca > pr ∧ ca > 0 then some (round2 ((ca - pr) / ca * 100)) else none
  | _, _ => none

/-- `score_weighted` (analyze.py lines 696-704): drop pairs with undefined
value, return 0 when none remain or the weights sum to `<= 0`, else
`int(round(clamp(sum(clamp(v) * w) / total_w)))`. -/
def score_weighted (parts : List (Option ℚ × ℚ)) : Int :=
  let usable := parts.filterMap (fun vw =>
    match vw.1 with
    | some v => some (v, vw.2)
    | none => none)
  match usable with
  | [] => 0
  | _ :: _ =>
    let total_w := (usable.map Prod.snd).sum
    if total_w ≤ 0 then 0
    else roundHalfEven (clamp ((usable.map (fun vw => clamp vw.1 * vw.2)).sum / total_w))

/-- The weighted-average combinator exactly as claim C9 words it (no guard on
the sum of weights): drop undefined values; if none remain the result is 0;
otherwise `round(Σ(clamp(value)·weight) / Σweight)` clamped again to
`[0, 100]`. -/
def score_weighted_claim (parts : List (Option ℚ × ℚ)) : Int :=
  let usable := parts.filterMap (fun vw =>
    match vw.1 with
    | some v => some (v, vw.2)
    | none => none)
  match usable with
  | [] => 0
  | _ :: _ =>
    let total_w := (usable.map Prod.snd).sum
    max 0 (min 100 (roundHalfEven ((usable.map (fun vw => clamp vw.1 * vw.2)).sum / total_w)))

/-- The amended specification of the combinator: as the claim words it, but
returning 0 also when the weights of the remaining pairs sum to `<= 0`. -/
def score_weighted_spec (parts : List (Option ℚ × ℚ)) : Int :=
  let usable := parts.filterMap (fun vw =>
    match vw.1 with
    | some v => some (v, vw.2)
    | none => none)
  match usable with
  | [] => 0
  | _ :: _ =>
    let total_w := (usable.map Prod.snd).sum
    if total_w ≤ 0 then 0
    else max 0 (min 100 (roundHalfEven ((usable.map (fun vw => clamp vw.1 * vw.2)).sum / total_w)))

/-- Concrete update list: 1433 meaningful updates on epoch day 0 and 615 on
epoch day 1.  The dominant share is `100·1433/2048 = 69.970703125 %`, which
is exactly representable in binary floating point, is strictly below 70, and
rounds to `70.0` at one decimal. -/
def updatesNear70 : List Int := List.replicate 1433 0 ++ List.replicate 615 86400

/-- Concrete update list: 30 meaningful updates on day 0 and 10 on day 1
(dominant share 75 %, candidate set after filtering has 10 elements). -/
def updates30x10 : List Int := List.replicate 30 0 ++ List.replicate 10 86400

/-- Concrete update list: 30 meaningful updates on day 0 and 5 on day 1
(dominant share `6000/7 ≈ 85.7 %`, candidate set after filtering has only 5
elements). -/
def updates30x5 : List Int := List.replicate 30 0 ++ List.replicate 5 86400

/-- The normalized product record as consumed by `analyze_products`, restricted
to the fields the embedded computations read.  Temporal fields hold the
`parse_dt` result (seconds since epoch, UTC; `none` for an absent or
unparsable string), price fields hold the `safe_float` result, `available`
holds `bool(p.get("available"))`. -/
structure Record where
  created_at : Option Int
  published_at : Option Int
  updated_at : Option Int
  price_min : Option ℚ
  compare_at_min : Option ℚ
  available : Bool
deriving DecidableEq

/-- `created_dt` (analyze.py lines 98-99, 318-319, 662):
`parse_dt(p.get("created_at")) or parse_dt(p.get("published_at"))`. -/
def created_dt (r : Record) : Option Int :=
  match r.created_at with
  | some t => some t
  | none => r.published_at

/-- A Python `datetime` value as it occurs as a sort key in `analyze_products`
(lines 601-605): either a timezone-aware UTC instant produced by `parse_dt`,
or the timezone-naive sentinel `datetime.min` used as fallback for records
without a parsable date. -/
inductive PyDt where
  | naiveMin : PyDt
  | aware : Int → PyDt
deriving DecidableEq

/-- Python comparison of two `datetime` values: comparing a timezone-naive
value with a timezone-aware one raises `TypeError`. -/
def pyLtDt : PyDt → PyDt → Except String Bool
  | PyDt.aware a, PyDt.aware b => Except.ok (decide (a < b))
  | PyDt.naiveMin, PyDt.naiveMin => Except.ok false
  | _, _ => Except.error "TypeError: cannot compare offset-naive and offset-aware datetimes"

/-- Insertion step of the model of `sorted(l, reverse=True)` over `datetime`
keys; propagates the `TypeError` of any comparison it performs. -/
def pyInsertDesc (x : PyDt) : List PyDt → Except String (List PyDt)
  | [] => Except.ok [x]
  | y :: ys => do
    let b ← pyLtDt y x
    if b then Except.ok (x :: y :: ys)
    else do
      let rest ← pyInsertDesc x ys
      Except.ok (y :: rest)

/-- Model of CPython `sorted(l, reverse=True)` over `datetime` keys as a
fallible comparison sort: it raises exactly when it compares a naive key with
an aware one.  On a two-element list it performs the same single comparison
as CPython's sort. -/
def pySortDesc : List PyDt → Except String (List PyDt)
  | [] => Except.ok []
  | x :: xs => do
    let s ← pySortDesc xs
    pyInsertDesc x s

/-- The `newest_dt` sort key of `analyze_products` (lines 601-602):
`parse_dt(created_at) or parse_dt(published_at) or datetime.min`. -/
def newest_dt (r : Record) : PyDt :=
  match created_dt r with
  | some t => PyDt.aware t
  | none => PyDt.naiveMin

/-- The key computation and sort behind `newest = sorted(products,
key=newest_dt, reverse=True)` (analyze.py line 619), with the raise behaviour
of the key comparisons made explicit. -/
def newest_sort (products : List Record) : Except String (List PyDt) :=
  pySortDesc (products.map newest_dt)

/-- A record with a parsable `created_at` (2024-01-01T00:00:00Z) and nothing
else. -/
def recDated : Record :=
  { created_at := some 1704067200, published_at := none, updated_at := none,
    price_min := none, compare_at_min := none, available := true }

/-- A record with no dates and no prices at all (every field optional per the
input contract). -/
def recBare : Record :=
  { created_at := none, published_at := none, updated_at := none,
    price_min := none, compare_at_min := none, available := false }

/-- `delta_pct` (analyze.py lines 672-675): `None` when either operand is
missing or the base is zero, else `round((a - b) / b * 100.0, 2)`. -/
def delta_pct (a b : Option ℚ) : Option ℚ :=
  match a, b with
  | some x, some y => if y = 0 then none else some (round2 ((x - y) / y * 100))
  | _, _ => none

/-- The slice of the Insights Report assembled by `analyze_products` that the
claims quantify over: the catalog stock counts (lines 570-571, 914-921), the
`new_vs_old.created.d30` count over `parse_dt(created_at)` only (lines
536-545, 557), positive-price statistics (lines 575-576, 635-637, 925-927),
the discounts section counts (lines 588-598, 936-937), the comparative
discount median and new-vs-catalog price delta (lines 640-690), and the
bulk-update dominant percentage (lines 140-148, 211, 858). -/
structure ReportSlice where
  total : Nat
  in_stock_count : Nat
  in_stock_pct : ℚ
  out_of_stock_count : Nat
  out_of_stock_pct : ℚ
  created_30 : Nat
  created_30_pct : ℚ
  price_min : Option ℚ
  price_max : Option ℚ
  price_median : Option ℚ
  discounted_count : Nat
  discounted_pct : ℚ
  median_discount_pct : Option ℚ
  new_products_price_delta_pct : Option ℚ
  bulk_update_dominant_pct : ℚ

/-- The embedded fragment of `analyze_products` producing `ReportSlice`.
`now` is the wall-clock instant the invocation observes (the code reads the
clock through `datetime.now` / `now_utc()`; cutoffs are `now - N days`). -/
def analyze_slice (now : Int) (products : List Record) : ReportSlice :=
  let total := products.length
  let in_stock := products.filter (fun p => p.available)
  let out_stock := products.filter (fun p => !p.available)
  let created_dts := products.map (fun p => p.created_at)
  let c30 := created_dts.countP (fun od =>
    match od with
    | some d => decide (now - 30 * 86400 ≤ d)
    | none => false)
  let prices_all := products.map (fun p => p.price_min)
  let prices_pos := (prices_all.filterMap id).filter (fun x => decide (0 < x))
  let price_median := pymedian prices_pos
  let price_min := list_min prices_pos
  let price_max := list_max prices_pos
  let discounts := products.filterMap (fun p =>
    match p.price_min with
    | none => none
    | some pr => if pr ≤ 0 then none else compute_discount_pct (some pr) p.compare_at_min)
  let discount_pcts := products.filterMap (fun p =>
    match p.price_min with
    | none => none
    | some pr => compute_discount_pct (some pr) p.compare_at_min)
  let new90_prices := products.filterMap (fun p =>
    match created_dt p, p.price_min with
    | some dt, some pr => if now - 90 * 86400 ≤ dt then some pr else none
    | _, _ => none)
  let new90_median := median_or_none (new90_prices.map some)
  let meaningful_updates := products.filterMap (fun p =>
    meaningful_update_dt (created_dt p) p.updated_at)
  let det := detect_bulk_update_spike meaningful_updates
  { total := total
    in_stock_count := in_stock.length
    in_stock_pct := pct in_stock.length total
    out_of_stock_count := out_stock.length
    out_of_stock_pct := pct out_stock.length total
    created_30 := c30
    created_30_pct := pct c30 total
    price_min := match price_min with | none => none | some v => some (round2 v)
    price_max := match price_max with | none => none | some v => some (round2 v)
    price_median := match price_median with | none => none | some v => some (round2 v)
    discounted_count := discounts.length
    discounted_pct := pct discounts.length total
    median_discount_pct :=
      match median_or_none (discount_pcts.map some) with
      | none => none
      | some v => some (round2 v)
    new_products_price_delta_pct := delta_pct new90_median price_median
    bulk_update_dominant_pct := det.2.2 }

/-- A record created at epoch instant 0 (only its creation date matters). -/
def recCreatedAtZero : Record :=
  { created_at := some 0, published_at := none, updated_at := none,
    price_min := none, compare_at_min := none, available := false }

/-- An old cheap record: created at epoch 0, `price_min = 10`. -/
def recOld10 : Record :=
  { created_at := some 0, published_at := none, updated_at := none,
    price_min := some 10, compare_at_min := none, available := false }

/-- A recently created expensive record: created on epoch day 299,
`price_min = 1000`. -/
def recNew1000 : Record :=
  { created_at := some (299 * 86400), published_at := none, updated_at := none,
    price_min := some 1000, compare_at_min := none, available := false }

/-- Record Set with two old cheap records and one new expensive one. -/
def psDelta : List Record := [recOld10, recOld10, recNew1000]

/-- Takeaway and confidence-note strings are modelled as lists of characters
(the exact character sequences of the Python `str` values). -/
abbrev Str := List Char

/-- Decimal digit character (indices above 9 cannot occur at call sites). -/
def digitChar (d : Nat) : Char :=
  (['0', '1', '2', '3', '4', '5', '6', '7', '8', '9']).getD d '0'

/-- Fuel-driven decimal rendering of a natural number. -/
def natDigitsAux : Nat → Nat → Str
  | 0, _ => []
  | fuel + 1, n =>
    if n < 10 then [digitChar n]
    else natDigitsAux fuel (n / 10) ++ [digitChar (n % 10)]

/-- Model of Python `str(n)` for a nonnegative integer. -/
def natDigits (n : Nat) : Str := natDigitsAux (n + 1) n

/-- Characters that can occur in a rendered number (digits, sign, decimal
point); note in particular that neither `%` nor a space is among them. -/
def isNumChar (c : Char) : Bool :=
  c ∈ ('+' :: '-' :: '.' :: ['0', '1', '2', '3', '4', '5', '6', '7', '8', '9'])

/-- Model of the Python decimal rendering `f"{x}"` of the float values
interpolated into takeaways and notes (all are half-even roundings to at most
two decimals).  Only its alphabet — digits, sign and decimal point — and its
nonemptiness matter to the deduplication property. -/
def renderQ (q : ℚ) : Str :=
  (if q < 0 then ['-'] else [])
    ++ natDigits (Int.floor |q|).toNat
    ++ '.' :: natDigits (Int.floor ((|q| - ((Int.floor |q| : Int) : ℚ)) * 100)).toNat

/-- Model of the Python rendering `f"{x:+.0f}"` (explicit sign, no decimals). -/
def renderSigned (q : ℚ) : Str :=
  (if q < 0 then ['-'] else ['+']) ++ natDigits (roundHalfEven |q|).toNat

/-- The acceleration trend label of `analyze_launch_timeline` (lines 430-434). -/
inductive Trend where
  | accelerating : Trend
  | decelerating : Trend
  | steady : Trend
deriving DecidableEq

/-- The price-positioning strategy label of `analyze_launch_timeline`
(lines 442-446). -/
inductive Strategy where
  | premium : Strategy
  | budget : Strategy
  | consistent : Strategy
deriving DecidableEq

/-- The strategy label string (always nonempty, hence truthy in Python). -/
def strategyStr : Strategy → Str
  | Strategy.premium => "Premium expansion".data
  | Strategy.budget => "Budget expansion".data
  | Strategy.consistent => "Consistent positioning".data

/-- Python truthiness of an optional float: present and nonzero. -/
def optTruthy (o : Option ℚ) : Bool :=
  match o with
  | some x => x != 0
  | none => false


/-- Takeaway template, generate_launch_insights line 482-484. -/
def tkVelocityHigh (v : Str) : Str :=
  "High launch velocity: ".data ++ v
    ++ " products/month recently, indicating aggressive expansion.".data

/-- Takeaway template, generate_launch_insights line 486-488. -/
def tkVelocityModerate (v : Str) : Str :=
  "Moderate launch velocity: ".data ++ v
    ++ " products/month, showing steady growth.".data

/-- Takeaway template, generate_launch_insights line 490-492. -/
def tkVelocityLow (v : Str) : Str :=
  "Low launch velocity: ".data ++ v
    ++ " products/month, suggesting mature/stable catalog.".data

/-- Takeaway template, generate_launch_insights line 498-500. -/
def tkAccel (a : Str) : Str :=
  "Launch rate accelerating (".data ++ a
    ++ "% vs 90d avg)—they".data ++ [Char.ofNat 39] ++ "re ramping up.".data

/-- Takeaway template, generate_launch_insights line 502-504. -/
def tkDecel (a : Str) : Str :=
  "Launch rate decelerating (".data ++ a
    ++ "% vs 90d avg)—expansion cooling off.".data

/-- Takeaway template, generate_launch_insights lines 513-516. -/
def tkStrategy (strat nm cm d : Str) : Str :=
  strat ++ ": New products (90d) at $".data ++ nm ++ " vs catalog $".data
    ++ cm ++ " (".data ++ d ++ "% delta).".data

/-- Takeaway template, generate_launch_insights lines 523-525. -/
def tkFresh (p c : Str) : Str :=
  p ++ "% of catalog (".data ++ c
    ++ " products) launched in last 30 days—very fresh inventory.".data

/-- Takeaway template, analyze_products line 784. -/
def tkInStock (p b : Str) : Str :=
  p ++ "% of products are currently in stock, which suggests ".data ++ b ++ ".".data

/-- Takeaway template, analyze_products line 787. -/
def tkDiscount (p b : Str) : Str :=
  p ++ "% of products show valid discounts (compare-at > price), indicating ".data
    ++ b ++ ".".data

/-- Takeaway template, analyze_products line 790. -/
def tkPricing (mn mx md : Str) : Str :=
  "Pricing spans $".data ++ mn ++ "–$".data ++ mx ++ " with a median of $".data
    ++ md ++ ". Position your core offer near the median to compete directly.".data

/-- Takeaway template, analyze_products line 796. -/
def tkBand (bl p : Str) : Str :=
  "The dominant price band is ".data ++ bl ++ " (".data ++ p
    ++ "% of products), showing where they primarily compete.".data

/-- Takeaway constant, analyze_products line 804. -/
def tkSkewAbove : Str :=
  "Newest products skew above the store median price, suggesting a premium expansion strategy.".data

/-- Takeaway constant, analyze_products line 806. -/
def tkSkewBelow : Str :=
  "Newest products skew below the store median price, suggesting a push toward cheaper volume offers.".data

/-- Takeaway constant, analyze_products line 808. -/
def tkSkewNear : Str :=
  "Newest products price near the median, suggesting steady positioning rather than a strategic shift.".data

/-- Takeaway constant, analyze_products line 812. -/
def tkVariantsFew : Str :=
  "Most products have few variants, suggesting a simpler catalog (often easier ops) and fewer customization options.".data

/-- Takeaway constant, analyze_products line 814. -/
def tkVariantsMany : Str :=
  "Products have multiple variants on average, suggesting upsell/option strategy (sizes, bundles, tiers).".data

/-- The single velocity takeaway (generate_launch_insights lines 480-492):
one of three sentences depending on the 30-day velocity. -/
def tkVelocitySlot (v : ℚ) : Str :=
  if 10 ≤ v then tkVelocityHigh (renderQ v)
  else if 3 ≤ v then tkVelocityModerate (renderQ v)
  else tkVelocityLow (renderQ v)

/-- The in-stock takeaway with its inline branch (analyze_products line 784). -/
def tkInStockSlot (p : ℚ) : Str :=
  tkInStock (renderQ p)
    (if 80 ≤ p then "stable inventory".data else "potential stock gaps to exploit".data)

/-- The discount takeaway with its inline branch (analyze_products line 787). -/
def tkDiscountSlot (p : ℚ) : Str :=
  tkDiscount (renderQ p)
    (if 30 ≤ p then "aggressive promotion".data else "limited discounting".data)

/-- The newest-cohort skew takeaway (analyze_products lines 801-808). -/
def tkSkewSlot (md nm : ℚ) : Str :=
  if md < nm then tkSkewAbove else if nm < md then tkSkewBelow else tkSkewNear

/-- The variants takeaway (analyze_products lines 810-814). -/
def tkVariantsSlot (av : ℚ) : Str :=
  if av ≤ 13 / 10 then tkVariantsFew else tkVariantsMany

/-- Confidence note, analyze_products lines 816-819 (text copied exactly,
including the doubled space and the `ofetn` typo). -/
def cnZeroPrice (c : Str) : Str :=
  c ++ " products had a  $0 price and were excluded from price statistics (ofetn samples, placeholders, or gated pricing)".data

/-- Confidence note, analyze_products line 821. -/
def cnNoPricing : Str :=
  "No usable pricing was found in the public products.json feed".data

/-- Confidence note, analyze_products line 831. -/
def cnCreatedMissing (p : Str) : Str :=
  "Created dates missing for ".data ++ p ++ "% of products; new-product timing may be understated.".data

/-- Confidence note, analyze_products line 833. -/
def cnUpdatedMissing (p : Str) : Str :=
  "Updated dates missing for ".data ++ p ++ "% of products; update-activity may be understated.".data

/-- Confidence note, analyze_products line 837. -/
def cnLowDiscount : Str :=
  "Low discount detection: store may not use compare-at pricing consistently.".data

/-- Confidence note, analyze_products lines 875-879. -/
def cnBulk (p bucket : Str) (applied : Bool) : Str :=
  "Update activity may be inflated: ".data ++ p
    ++ "% of meaningful updates occurred on ".data ++ bucket ++ ". ".data
    ++ (if applied then "We filtered that spike to estimate organic edits.".data
        else "Spike detected, but filtering would remove nearly all updates—showing meaningful updates instead.".data)

/-- Confidence note, compute_confidence_notes line 277. -/
def cnProvenance : Str :=
  "This report is based only on the public Shopify product catalog endpoint (/products.json). It does not include traffic, conversion rate, ads, or checkout data.".data

/-- Confidence note, compute_confidence_notes line 278. -/
def cnDateCoverage (p q : Str) : Str :=
  "Date coverage: ".data ++ p ++ "% of products include created/published dates; ".data
    ++ q ++ "% include updated_at.".data

/-- Confidence note, compute_confidence_notes line 279. -/
def cnPricingCoverage (p : Str) : Str :=
  "Pricing coverage: ".data ++ p ++ "% of products include a usable price.".data

/-- Confidence note, compute_confidence_notes line 280. -/
def cnDiscountCoverage (p : Str) : Str :=
  "Discount coverage: ".data ++ p ++ "% include compare-at pricing fields (discounts only count when compare_at > price).".data

/-- Confidence note, compute_confidence_notes line 281. -/
def cnHtml404 : Str :=
  "If a store returns HTML/404 for /products.json, it may be non-Shopify, headless Shopify with restrictions, or intentionally blocking the endpoint.".data

/-- Confidence note, compute_confidence_notes line 259 (the empty Record Set
case). -/
def cnNoProducts : Str :=
  "No products were returned from /products.json. This store may block Shopify product JSON access or is not Shopify.".data

/-- The already-computed numeric values that the takeaway generator
(generate_launch_insights plus the takeaway block of analyze_products, lines
775-814) interpolates into its sentences; quantifying over all of them covers
every Record Set. -/
structure TParams where
  total : Nat
  v30 : ℚ
  trend : Trend
  accel : Option ℚ
  strat : Strategy
  delta90 : Option ℚ
  new90_median : Option ℚ
  cat_median : Option ℚ
  pct30 : ℚ
  count30 : Nat
  stock_pct : ℚ
  disc_pct : ℚ
  p_min : Option ℚ
  p_max : Option ℚ
  p_median : Option ℚ
  top_band : Option (Str × ℚ)
  newest_med : Option ℚ
  avg_variants : Option ℚ

/-- The takeaways list assembled by `analyze_products` (line 775-814: the
launch insights of generate_launch_insights followed by the catalog
takeaways), as a function of the interpolated values.  Guards mirror the
source, including Python truthiness of floats (nonzero) and of containers. -/
def buildTakeaways (P : TParams) : List Str :=
  (if P.total ≠ 0 then
    [tkVelocitySlot P.v30]
    ++ (if P.trend = Trend.accelerating ∧ optTruthy P.accel = true then
          [tkAccel (renderSigned (P.accel.getD 0))] else [])
    ++ (if P.trend = Trend.decelerating ∧ optTruthy P.accel = true then
          [tkDecel (renderSigned (P.accel.getD 0))] else [])
    ++ (if P.delta90.isSome = true ∧ optTruthy P.new90_median = true
          ∧ optTruthy P.cat_median = true then
          [tkStrategy (strategyStr P.strat) (renderQ (P.new90_median.getD 0))
            (renderQ (P.cat_median.getD 0)) (renderSigned (P.delta90.getD 0))] else [])
    ++ (if 5 ≤ P.pct30 then [tkFresh (renderQ P.pct30) (natDigits P.count30)] else [])
   else [])
  ++ (if P.total ≠ 0 then
    [tkInStockSlot P.stock_pct]
    ++ [tkDiscountSlot P.disc_pct]
    ++ (if P.p_median.isSome = true ∧ P.p_min.isSome = true ∧ P.p_max.isSome = true then
          [tkPricing (renderQ (P.p_min.getD 0)) (renderQ (P.p_max.getD 0))
            (renderQ (P.p_median.getD 0))] else [])
    ++ (if P.top_band.isSome = true then
          [tkBand (P.top_band.getD ([], 0)).1 (renderQ (P.top_band.getD ([], 0)).2)] else [])
    ++ (if P.p_median.isSome = true ∧ P.newest_med.isSome = true then
          [tkSkewSlot (P.p_median.getD 0) (P.newest_med.getD 0)] else [])
    ++ (if P.avg_variants.isSome = true then [tkVariantsSlot (P.avg_variants.getD 0)] else [])
   else [])

/-- The already-computed values interpolated into confidence notes
(analyze_products lines 815-837 and 875-883, compute_confidence_notes lines
253-283). -/
structure NParams where
  total : Nat
  zero_price_count : Nat
  priced_count : Nat
  cm : ℚ
  um : ℚ
  share : ℚ
  bulk : Option (ℚ × Str × Bool)
  cov_created : ℚ
  cov_updated : ℚ
  cov_price : ℚ
  cov_compare : ℚ

/-- The confidence-notes list assembled by `analyze_products`: the in-line
notes (zero prices, absent pricing, date coverage gaps, low discount
coverage, bulk spike) followed by `compute_confidence_notes`. -/
def buildNotes (N : NParams) : List Str :=
  ((if N.total ≠ 0 ∧ 0 < N.zero_price_count then
      [cnZeroPrice (natDigits N.zero_price_count)] else [])
    ++ (if N.total ≠ 0 ∧ N.priced_count = 0 then [cnNoPricing] else [])
    ++ (if N.total ≠ 0 ∧ 20 < N.cm then [cnCreatedMissing (renderQ N.cm)] else [])
    ++ (if N.total ≠ 0 ∧ 20 < N.um then [cnUpdatedMissing (renderQ N.um)] else [])
    ++ (if N.total ≠ 0 ∧ N.share < 5 then [cnLowDiscount] else [])
    ++ (if N.bulk.isSome = true then
          [cnBulk (renderQ (N.bulk.getD (0, [], false)).1) (N.bulk.getD (0, [], false)).2.1
            (N.bulk.getD (0, [], false)).2.2] else []))
  ++ (if N.total = 0 then [cnNoProducts]
      else [cnProvenance,
            cnDateCoverage (renderQ N.cov_created) (renderQ N.cov_updated),
            cnPricingCoverage (renderQ N.cov_price),
            cnDiscountCoverage (renderQ N.cov_compare),
            cnHtml404])

/-- The fixed provenance notes the caller appends to the report
(app/main.py lines 213-218). -/
def extraProvenanceNotes : List Str :=
  ["Data source: public Shopify /products.json endpoint.".data,
   "Safety cap: up to 10 pages × 250 products (max ~2,500 products).".data,
   "Discounts are counted only when compare_at_min > price_min.".data,
   "This report does not infer traffic, conversion rate, or revenue.".data]

/-- One step of the caller's guarded append (app/main.py lines 220-222):
`if n not in notes: notes.append(n)`. -/
def addUnique (notes : List Str) (n : Str) : List Str :=
  if n ∈ notes then notes else notes ++ [n]

/-- The confidence notes of the assembled report after the caller appended
the fixed provenance notes. -/
def finalNotes (N : NParams) : List Str :=
  extraProvenanceNotes.foldl addUnique (buildNotes N)

/-- Every character of the string is from the rendered-number alphabet. -/
def allNum (s : Str) : Prop := ∀ c ∈ s, isNumChar c = true

/-- A coarse classification of a leading character, used to separate the
takeaway/note templates: rendered-number characters map to 0, the capital
letters that open the various templates to distinct codes. -/
def classChar (c : Char) : Nat :=
  if isNumChar c then 0
  else if c = 'H' then 1
  else if c = 'M' then 2
  else if c = 'L' then 3
  else if c = 'P' then 4
  else if c = 'B' then 5
  else if c = 'C' then 6
  else if c = 'T' then 7
  else if c = 'N' then 8
  else if c = 'U' then 9
  else if c = 'D' then 10
  else if c = 'I' then 11
  else 99

/-- The class of a string's first character (100 for the empty string). -/
def headClass (s : Str) : Nat :=
  match s.get? 0 with
  | some c => classChar c
  | none => 100

/-! ## Rounding helpers -/

theorem le_roundHalfEven (n : Int) (x : ℚ) (h : (n : ℚ) ≤ x) : n ≤ roundHalfEven x := by
  have hf : n ≤ Int.floor x := Int.le_floor.mpr h
  simp only [roundHalfEven]
  split_ifs <;> omega

theorem roundHalfEven_le (n : Int) (x : ℚ) (h : x ≤ (n : ℚ)) : roundHalfEven x ≤ n := by
  have hfl : ((Int.floor x : Int) : ℚ) ≤ x := Int.floor_le x
  have hfn : Int.floor x ≤ n := by exact_mod_cast hfl.trans h
  simp only [roundHalfEven]
  split_ifs with h1 h2 h3
  · exact hfn
  · rcases lt_or_eq_of_le hfn with hlt | heq
    · omega
    · exfalso
      rw [heq] at h1
      have : x - (n : ℚ) < 1/2 := by linarith
      exact h1 this
  · exact hfn
  · rcases lt_or_eq_of_le hfn with hlt | heq
    · omega
    · exfalso
      rw [heq] at h1
      have : x - (n : ℚ) < 1/2 := by linarith
      exact h1 this

theorem roundHalfEven_eq_low (z : Int) (x : ℚ) (h1 : (z : ℚ) ≤ x)
    (h2 : x < (z : ℚ) + 1/2) : roundHalfEven x = z := by
  have hf : Int.floor x = z := Int.floor_eq_iff.mpr ⟨h1, by linarith⟩
  unfold roundHalfEven
  rw [hf, if_pos (by linarith)]

theorem roundHalfEven_eq_high (z : Int) (x : ℚ) (h1 : (z : ℚ) + 1/2 < x)
    (h2 : x ≤ (z : ℚ) + 1) : roundHalfEven x = z + 1 := by
  rcases eq_or_lt_of_le h2 with heq | hlt
  · have hf : Int.floor x = z + 1 := by
      rw [heq]
      rw [show ((z : ℚ) + 1) = ((z + 1 : Int) : ℚ) by push_cast; ring]
      exact Int.floor_intCast (z + 1)
    unfold roundHalfEven
    rw [hf, if_pos]
    rw [heq]
    push_cast
    linarith
  · have hf : Int.floor x = z := Int.floor_eq_iff.mpr ⟨by linarith, by linarith⟩
    unfold roundHalfEven
    rw [hf, if_neg (by linarith), if_pos (by linarith)]

theorem roundHalfEven_zero : roundHalfEven 0 = 0 := by
  have := roundHalfEven_eq_low 0 0 (by norm_num) (by norm_num)
  simpa using this

theorem round2_nonneg (x : ℚ) (h : 0 ≤ x) : 0 ≤ round2 x := by
  unfold round2
  have h1 : (0 : Int) ≤ roundHalfEven (x * 100) :=
    le_roundHalfEven 0 (x * 100) (by push_cast; linarith)
  have h2 : (0 : ℚ) ≤ (roundHalfEven (x * 100) : ℚ) := by exact_mod_cast h1
  positivity

theorem round2_le_100 (x : ℚ) (h : x ≤ 100) : round2 x ≤ 100 := by
  unfold round2
  have h1 : roundHalfEven (x * 100) ≤ 10000 :=
    roundHalfEven_le 10000 (x * 100) (by push_cast; linarith)
  have h2 : (roundHalfEven (x * 100) : ℚ) ≤ 10000 := by exact_mod_cast h1
  linarith

theorem round1_nonneg (x : ℚ) (h : 0 ≤ x) : 0 ≤ round1 x := by
  unfold round1
  have h1 : (0 : Int) ≤ roundHalfEven (x * 10) :=
    le_roundHalfEven 0 (x * 10) (by push_cast; linarith)
  have h2 : (0 : ℚ) ≤ (roundHalfEven (x * 10) : ℚ) := by exact_mod_cast h1
  positivity

theorem round1_le_100 (x : ℚ) (h : x ≤ 100) : round1 x ≤ 100 := by
  unfold round1
  have h1 : roundHalfEven (x * 10) ≤ 1000 :=
    roundHalfEven_le 1000 (x * 10) (by push_cast; linarith)
  have h2 : (roundHalfEven (x * 10) : ℚ) ≤ 1000 := by exact_mod_cast h1
  linarith

theorem pct_nonneg (n d : Nat) : 0 ≤ pct n d := by
  unfold pct
  split_ifs with h
  · exact round2_nonneg _ (by positivity)
  · exact le_refl 0

theorem pct_le_100 (n d : Nat) (h : n ≤ d) : pct n d ≤ 100 := by
  unfold pct
  split_ifs with hd
  · apply round2_le_100
    have hdpos : (0 : ℚ) < (d : ℚ) := by
      have : 0 < d := Nat.pos_of_ne_zero hd
      exact_mod_cast this
    have hnd : (n : ℚ) ≤ (d : ℚ) := by exact_mod_cast h
    have : (n : ℚ) / (d : ℚ) ≤ 1 := by
      rw [div_le_one hdpos]
      exact hnd
    linarith
  · norm_num

/-! ## Discount percentage (claim C3) -/

/-- Claim C3 counterexample: at `price_min = 0`, `compare_at_min = 10` the code
returns a defined discount (`100.0`) although the claimed definedness
condition `compare_at_min > price_min > 0` fails (`price_min > 0` is false),
so the claimed equivalence is violated at this input. -/
theorem discount_defined_at_zero_price :
    ¬ (((compute_discount_pct (some 0) (some 10)).isSome = true) ↔
        ((10 : ℚ) > 0 ∧ (0 : ℚ) > 0)) := by
  intro hiff
  have h1 : (compute_discount_pct (some 0) (some 10)).isSome = true := by
    simp only [compute_discount_pct]
    rw [if_pos (by norm_num)]
    rfl
  have h2 := hiff.mp h1
  norm_num at h2

/-- Claim C3 (amended): `compute_discount_pct` is defined iff both inputs are
present, `compare_at_min > price_min` and `compare_at_min > 0` (the code does
not require `price_min > 0`), and then equals
`round((compare_at_min - price_min) / compare_at_min * 100, 2)`; in
particular `(10, 5)` is undefined and `(5, 10)` gives `50.0`. -/
theorem compute_discount_pct_characterization :
    (∀ pr ca : ℚ, compute_discount_pct (some pr) (some ca) =
        if ca > pr ∧ ca > 0 then some (round2 ((ca - pr) / ca * 100)) else none)
    ∧ (∀ o : Option ℚ, compute_discount_pct none o = none ∧ compute_discount_pct o none = none)
    ∧ compute_discount_pct (some 10) (some 5) = none
    ∧ compute_discount_pct (some 5) (some 10) = some 50 := by
  refine ⟨fun pr ca => rfl, fun o => ⟨rfl, by cases o <;> rfl⟩, ?_, ?_⟩
  · simp only [compute_discount_pct]
    rw [if_neg (by norm_num)]
  · simp only [compute_discount_pct]
    rw [if_pos (by norm_num)]
    have hr : roundHalfEven (((10 : ℚ) - 5) / 10 * 100 * 100) = 5000 := by
      apply roundHalfEven_eq_low
      · push_cast
        norm_num
      · push_cast
        norm_num
    simp only [round2, hr]
    norm_num

/-! ## Meaningful updates (claim C6) -/

/-- Claim C6 counterexample: a record whose `updated_at` (epoch 0) lies a full
day *before* its creation instant (epoch 86400) is counted as a meaningful
update by the code (which compares `abs(ud - cd)` with the grace period),
although the claimed condition "update more than 6 hours *after* creation"
fails. -/
theorem meaningful_update_before_creation_counted :
    ¬ (((meaningful_update_dt (some 86400) (some 0)).isSome = true) ↔
        ((86400 : Int) + GRACE_SECONDS < 0)) := by
  decide

/-- Claim C6 (amended): with a parsable update instant and a creation instant,
the update is meaningful iff its *absolute* distance from the creation
instant exceeds 6 hours (21600 s) — more than 6 hours after **or before**
creation; without a creation instant every parsable update is meaningful;
without an update instant nothing is. -/
theorem meaningful_update_dt_characterization :
    (∀ c u : Int, ((meaningful_update_dt (some c) (some u)).isSome = true ↔
        GRACE_SECONDS < |u - c|))
    ∧ (∀ u : Int, meaningful_update_dt none (some u) = some u)
    ∧ (∀ cd : Option Int, meaningful_update_dt cd none = none) := by
  refine ⟨fun c u => ?_, fun u => rfl, fun cd => by cases cd <;> rfl⟩
  simp only [meaningful_update_dt]
  split_ifs with h
  · simp only [Option.isSome_none, Bool.false_eq_true, false_iff, not_lt]
    exact h
  · simp only [Option.isSome_some, true_iff]
    exact not_le.mp h

/-! ## Bulk-spike detection toolkit -/

theorem foldl_fixed {α β : Type _} (f : β → α → β) (b : β) (a : α) (h : f b a = b) :
    ∀ n, List.foldl f b (List.replicate n a) = b := by
  intro n
  induction n with
  | zero => rfl
  | succ k ih =>
    rw [List.replicate_succ, List.foldl_cons, h]
    exact ih

theorem foldl_replicate_head {α β : Type _} (f : β → α → β) (a : α) (n : Nat) (b : β)
    (h : f (f b a) a = f b a) :
    List.foldl f b (List.replicate (n + 1) a) = f b a := by
  rw [List.replicate_succ, List.foldl_cons]
  exact foldl_fixed f (f b a) a h n

theorem mostCommon1_two_blocks (A B : Int) (n m : Nat) (hn : n ≠ 0) (hAB : B ≠ A)
    (hm : m ≤ n) :
    mostCommon1 (List.replicate n A ++ List.replicate m B) = some (A, n) := by
  have hAB' : A ≠ B := Ne.symm hAB
  have hcA : (List.replicate n A ++ List.replicate m B).count A = n := by
    rw [List.count_append, List.count_replicate, List.count_replicate]
    simp [beq_iff_eq, hAB]
  have hcB : (List.replicate n A ++ List.replicate m B).count B = m := by
    rw [List.count_append, List.count_replicate, List.count_replicate]
    simp [beq_iff_eq, hAB']
  obtain ⟨n', rfl⟩ : ∃ n', n = n' + 1 := ⟨n - 1, by omega⟩
  have s1 : mcStep (List.replicate (n' + 1) A ++ List.replicate m B) none A
      = some (A, n' + 1) := by
    simp only [mcStep]
    rw [hcA]
  have s2 : mcStep (List.replicate (n' + 1) A ++ List.replicate m B) (some (A, n' + 1)) A
      = some (A, n' + 1) := by
    simp only [mcStep]
    rw [hcA, if_neg (by omega)]
  have s3 : mcStep (List.replicate (n' + 1) A ++ List.replicate m B) (some (A, n' + 1)) B
      = some (A, n' + 1) := by
    simp only [mcStep]
    rw [hcB, if_neg (by omega)]
  unfold mostCommon1
  rw [List.foldl_append]
  have e1 : List.foldl (mcStep (List.replicate (n' + 1) A ++ List.replicate m B)) none
      (List.replicate (n' + 1) A) = some (A, n' + 1) := by
    rw [foldl_replicate_head _ _ _ _ (by rw [s1]; exact s2), s1]
  rw [e1, foldl_fixed _ _ _ s3]

theorem mostCommon1_one_block (A : Int) (n : Nat) (hn : n ≠ 0) :
    mostCommon1 (List.replicate n A) = some (A, n) := by
  have hcA : (List.replicate n A).count A = n := by
    rw [List.count_replicate]
    simp
  obtain ⟨n', rfl⟩ : ∃ n', n = n' + 1 := ⟨n - 1, by omega⟩
  have s1 : mcStep (List.replicate (n' + 1) A) none A = some (A, n' + 1) := by
    simp only [mcStep]
    rw [hcA]
  have s2 : mcStep (List.replicate (n' + 1) A) (some (A, n' + 1)) A = some (A, n' + 1) := by
    simp only [mcStep]
    rw [hcA, if_neg (by omega)]
  unfold mostCommon1
  rw [foldl_replicate_head _ _ _ _ (by rw [s1]; exact s2), s1]

theorem detect_two_blocks (a b : Int) (n m : Nat) (hn : n ≠ 0)
    (hab : bucketDay b ≠ bucketDay a) (hm : m ≤ n) :
    detect_bulk_update_spike (List.replicate n a ++ List.replicate m b) =
      (if 70 ≤ round1 (100 * (n : ℚ) / ((n + m : Nat) : ℚ)) ∧ 30 ≤ n + m then true else false,
       some (bucketDay a), round1 (100 * (n : ℚ) / ((n + m : Nat) : ℚ))) := by
  have hne : (List.replicate n a ++ List.replicate m b).isEmpty = false := by
    obtain ⟨n', rfl⟩ : ∃ n', n = n' + 1 := ⟨n - 1, by omega⟩
    rw [List.replicate_succ]
    rfl
  have hmap : (List.replicate n a ++ List.replicate m b).map bucketDay
      = List.replicate n (bucketDay a) ++ List.replicate m (bucketDay b) := by
    rw [List.map_append, List.map_replicate, List.map_replicate]
  have hmc := mostCommon1_two_blocks (bucketDay a) (bucketDay b) n m hn hab hm
  have hlen : (List.replicate n a ++ List.replicate m b).length = n + m := by
    rw [List.length_append, List.length_replicate, List.length_replicate]
  simp only [detect_bulk_update_spike, hne, Bool.false_eq_true, if_false, hmap, hmc, hlen]

theorem detect_one_block (a : Int) (n : Nat) (hn : n ≠ 0) :
    detect_bulk_update_spike (List.replicate n a) =
      (if 70 ≤ round1 (100 * (n : ℚ) / (n : ℚ)) ∧ 30 ≤ n then true else false,
       some (bucketDay a), round1 (100 * (n : ℚ) / (n : ℚ))) := by
  have hne : (List.replicate n a).isEmpty = false := by
    obtain ⟨n', rfl⟩ : ∃ n', n = n' + 1 := ⟨n - 1, by omega⟩
    rw [List.replicate_succ]
    rfl
  have hmap : (List.replicate n a).map bucketDay = List.replicate n (bucketDay a) :=
    List.map_replicate
  have hmc := mostCommon1_one_block (bucketDay a) n hn
  have hlen : (List.replicate n a).length = n := List.length_replicate n a
  simp only [detect_bulk_update_spike, hne, Bool.false_eq_true, if_false, hmap, hmc, hlen]

theorem mcStep_isSome (l : List Int) (acc : Option (Int × Nat)) (k : Int)
    (h : acc.isSome = true) : (mcStep l acc k).isSome = true := by
  rcases acc with _ | kc
  · simp at h
  · simp only [mcStep]
    split_ifs <;> rfl

theorem foldl_mcStep_isSome (l xs : List Int) (acc : Option (Int × Nat))
    (h : acc.isSome = true) : (xs.foldl (mcStep l) acc).isSome = true := by
  induction xs generalizing acc with
  | nil => exact h
  | cons x xs ih => exact ih _ (mcStep_isSome l acc x h)

theorem mostCommon1_isSome (l : List Int) (h : l ≠ []) : (mostCommon1 l).isSome = true := by
  rcases l with _ | ⟨x, xs⟩
  · exact absurd rfl h
  · unfold mostCommon1
    rw [List.foldl_cons]
    exact foldl_mcStep_isSome _ _ _ rfl

/-! ## Bulk-spike flag (claim C4) -/

/-- Claim C4 counterexample: 2048 meaningful updates of which 1433 fall on the
dominant UTC day (and 615 on another day).  The dominant share is
`100·1433/2048 = 69.970703125 % < 70 %` (exactly representable in binary
floating point), yet the code flags a bulk pattern, because it compares the
share only after rounding it to one decimal (`70.0`). -/
theorem detect_bulk_flagged_below_70 :
    (detect_bulk_update_spike updatesNear70).1 = true ∧
      dominant_share_raw updatesNear70 < 70 := by
  have hab : bucketDay 86400 ≠ bucketDay 0 := by decide
  have hdet := detect_two_blocks 0 86400 1433 615 (by norm_num) hab (by norm_num)
  have hmap : (List.replicate 1433 (0 : Int) ++ List.replicate 615 86400).map bucketDay
      = List.replicate 1433 (bucketDay 0) ++ List.replicate 615 (bucketDay 86400) := by
    rw [List.map_append, List.map_replicate, List.map_replicate]
  have hmc := mostCommon1_two_blocks (bucketDay 0) (bucketDay 86400) 1433 615
    (by norm_num) hab (by norm_num)
  constructor
  · show (detect_bulk_update_spike
      (List.replicate 1433 0 ++ List.replicate 615 86400)).1 = true
    rw [hdet]
    have h1 : roundHalfEven (100 * ((1433 : Nat) : ℚ) / (((1433 + 615 : Nat)) : ℚ) * 10)
        = 700 := by
      apply roundHalfEven_eq_high 699
      · push_cast
        norm_num
      · push_cast
        norm_num
    have hr : round1 (100 * ((1433 : Nat) : ℚ) / (((1433 + 615 : Nat)) : ℚ)) = 70 := by
      simp only [round1, h1]
      norm_num
    rw [hr, if_pos (by norm_num)]
  · show dominant_share_raw (List.replicate 1433 0 ++ List.replicate 615 86400) < 70
    unfold dominant_share_raw topCount
    rw [hmap, hmc]
    simp only [List.length_append, List.length_replicate]
    push_cast
    norm_num

/-- Claim C4 (amended): the bulk flag is set iff the dominant share *rounded
to one decimal* is at least 70.0 and there are at least 30 meaningful
updates; in particular 10 updates all on one day never trigger it. -/
theorem detect_bulk_flag_characterization :
    (∀ u : List Int, (detect_bulk_update_spike u).1 =
        if 70 ≤ round1 (dominant_share_raw u) ∧ 30 ≤ u.length then true else false)
    ∧ (detect_bulk_update_spike (List.replicate 10 0)).1 = false := by
  constructor
  · intro u
    rcases u with _ | ⟨x, xs⟩
    · have hshare : dominant_share_raw [] = 0 := by
        unfold dominant_share_raw topCount mostCommon1
        simp
      have hr : round1 (0 : ℚ) = 0 := by
        simp only [round1]
        rw [show ((0 : ℚ) * 10) = 0 by ring, roundHalfEven_zero]
        norm_num
      rw [hshare, hr, if_neg (by norm_num)]
      rfl
    · have hsome := mostCommon1_isSome ((x :: xs).map bucketDay) (by simp)
      obtain ⟨kc, hkc⟩ := Option.isSome_iff_exists.mp hsome
      have hshare : dominant_share_raw (x :: xs)
          = 100 * (kc.2 : ℚ) / (((x :: xs).length : Nat) : ℚ) := by
        unfold dominant_share_raw topCount
        rw [hkc]
      rw [hshare]
      simp only [detect_bulk_update_spike, hkc, List.isEmpty_cons, Bool.false_eq_true,
        if_false]
  · have hdet := detect_one_block 0 10 (by norm_num)
    rw [hdet]
    simp only []
    exact if_neg (fun hc => absurd hc.2 (by norm_num))

/-! ## Organic update filtering (claims C5, C10) -/

theorem detect_none_not_bulk (u : List Int)
    (h : (detect_bulk_update_spike u).2.1 = none) :
    (detect_bulk_update_spike u).1 = false := by
  rcases hmc : mostCommon1 (u.map bucketDay) with _ | tb
  · simp only [detect_bulk_update_spike, hmc]
    split_ifs <;> rfl
  · simp only [detect_bulk_update_spike, hmc] at h ⊢
    by_cases h1 : u.isEmpty
    · simp [h1]
    · simp [h1] at h

theorem organic_result_of_bulk (u : List Int)
    (h : (detect_bulk_update_spike u).1 = true) :
    organic_result u =
      if 10 ≤ (bulk_candidate u).length then (bulk_candidate u, true) else (u, false) := by
  rcases hob : (detect_bulk_update_spike u).2.1 with _ | top
  · rw [detect_none_not_bulk u hob] at h
    exact absurd h (by simp)
  · rcases hd : detect_bulk_update_spike u with ⟨fl, ob, pp⟩
    rw [hd] at h hob
    simp only at h hob
    subst h
    subst hob
    unfold organic_result bulk_candidate
    rw [hd]
    simp

/-- Claim C5: whenever a bulk pattern is flagged, the organic update set is
the meaningful-update list with every update on the dominant day removed if
that candidate retains at least 10 updates (and then `bulk_filter_applied =
true`); otherwise the unfiltered meaningful updates are kept (never an
emptied-out organic set) and `bulk_filter_applied = false`. -/
theorem organic_selection_when_bulk_flagged (u : List Int)
    (h : (detect_bulk_update_spike u).1 = true) :
    organic_result u =
      if 10 ≤ (bulk_candidate u).length then (bulk_candidate u, true) else (u, false) :=
  organic_result_of_bulk u h

/-- Witness for claim C5: 40 meaningful updates, 30 on the dominant day and 10
elsewhere; the spike is flagged (75 % ≥ 70 %, 40 ≥ 30), the candidate set has
exactly 10 elements, so the filter is applied and the organic set is those 10
updates. -/
theorem organic_selection_when_bulk_flagged_witness :
    (detect_bulk_update_spike updates30x10).1 = true ∧
      organic_result updates30x10 = (List.replicate 10 86400, true) := by
  have hab : bucketDay 86400 ≠ bucketDay 0 := by decide
  have hdet := detect_two_blocks 0 86400 30 10 (by norm_num) hab (by norm_num)
  have h1 : (detect_bulk_update_spike updates30x10).1 = true := by
    show (detect_bulk_update_spike (List.replicate 30 0 ++ List.replicate 10 86400)).1 = true
    rw [hdet]
    have hrhe : roundHalfEven (100 * ((30 : Nat) : ℚ) / (((30 + 10 : Nat)) : ℚ) * 10)
        = 750 := by
      apply roundHalfEven_eq_low
      · push_cast
        norm_num
      · push_cast
        norm_num
    have hr : round1 (100 * ((30 : Nat) : ℚ) / (((30 + 10 : Nat)) : ℚ)) = 75 := by
      simp only [round1, hrhe]
      norm_num
    rw [hr, if_pos (by norm_num)]
  have hcand : bulk_candidate updates30x10 = List.replicate 10 86400 := by
    show bulk_candidate (List.replicate 30 0 ++ List.replicate 10 86400) = _
    unfold bulk_candidate
    rw [hdet]
    simp only []
    rw [List.filter_append, List.filter_replicate, List.filter_replicate]
    norm_num [bucketDay]
  refine ⟨h1, ?_⟩
  rw [organic_selection_when_bulk_flagged updates30x10 h1, hcand]
  rw [if_pos (by simp)]

/-- Claim C10: the report's `bulk_update_flag` always equals the raw
detection outcome, independent of whether the dominant-day filter was
applied; in particular when a spike is detected but filtering would leave
fewer than 10 updates, the report carries `bulk_update_flag = true` together
with `bulk_filter_applied = false`. -/
theorem bulk_flag_filter_divergence (u : List Int) :
    bulk_update_flag u = (detect_bulk_update_spike u).1 ∧
    ((detect_bulk_update_spike u).1 = true → (bulk_candidate u).length < 10 →
      bulk_update_flag u = true ∧ (organic_result u).2 = false) := by
  refine ⟨rfl, fun h hlen => ⟨h, ?_⟩⟩
  rw [organic_result_of_bulk u h, if_neg (by omega)]

/-- Witness for claim C10: 35 meaningful updates, 30 on the dominant day and 5
elsewhere; the spike is flagged (85.7 % ≥ 70 %, 35 ≥ 30) but the candidate
set keeps only 5 < 10 updates, so the report shows `bulk_update_flag = true`
with `bulk_filter_applied = false`. -/
theorem bulk_flag_filter_divergence_witness :
    bulk_update_flag updates30x5 = true ∧ (organic_result updates30x5).2 = false := by
  have hab : bucketDay 86400 ≠ bucketDay 0 := by decide
  have hdet := detect_two_blocks 0 86400 30 5 (by norm_num) hab (by norm_num)
  have h1 : (detect_bulk_update_spike updates30x5).1 = true := by
    show (detect_bulk_update_spike (List.replicate 30 0 ++ List.replicate 5 86400)).1 = true
    rw [hdet]
    have hrhe : roundHalfEven (100 * ((30 : Nat) : ℚ) / (((30 + 5 : Nat)) : ℚ) * 10)
        = 857 := by
      apply roundHalfEven_eq_low
      · push_cast
        norm_num
      · push_cast
        norm_num
    have hr : round1 (100 * ((30 : Nat) : ℚ) / (((30 + 5 : Nat)) : ℚ)) = 857 / 10 := by
      simp only [round1, hrhe]
      norm_num
    rw [hr, if_pos (by norm_num)]
  have hcand : (bulk_candidate updates30x5).length < 10 := by
    have hc : bulk_candidate updates30x5 = List.replicate 5 86400 := by
      show bulk_candidate (List.replicate 30 0 ++ List.replicate 5 86400) = _
      unfold bulk_candidate
      rw [hdet]
      simp only []
      rw [List.filter_append, List.filter_replicate, List.filter_replicate]
      norm_num [bucketDay]
    rw [hc]
    simp
  exact (bulk_flag_filter_divergence updates30x5).2 h1 hcand

/-! ## Weighted score combinator (claim C9) -/

theorem roundHalfEven_hundred : roundHalfEven (100 : ℚ) = 100 := by
  have h := roundHalfEven_eq_low 100 100 (by norm_num) (by norm_num)
  simpa using h

theorem roundHalfEven_clamp (s : ℚ) :
    roundHalfEven (clamp s) = max 0 (min 100 (roundHalfEven s)) := by
  rcases lt_or_le s 0 with hs | hs
  · have hc : clamp s = 0 := by
      unfold clamp
      rw [min_eq_right (by linarith), max_eq_left (by linarith)]
    rw [hc, roundHalfEven_zero]
    have hr : roundHalfEven s ≤ 0 := roundHalfEven_le 0 s (by push_cast; linarith)
    rw [min_eq_right (by omega), max_eq_left (by omega)]
  · rcases le_or_lt s 100 with hs2 | hs2
    · have hc : clamp s = s := by
        unfold clamp
        rw [min_eq_right hs2, max_eq_right hs]
      rw [hc]
      have h1 : 0 ≤ roundHalfEven s := le_roundHalfEven 0 s (by push_cast; linarith)
      have h2 : roundHalfEven s ≤ 100 := roundHalfEven_le 100 s (by push_cast; linarith)
      rw [min_eq_right (by omega), max_eq_right (by omega)]
    · have hc : clamp s = 100 := by
        unfold clamp
        rw [min_eq_left (by linarith), max_eq_right (by norm_num)]
      rw [hc, roundHalfEven_hundred]
      have hr : 100 ≤ roundHalfEven s := le_roundHalfEven 100 s (by push_cast; linarith)
      rw [min_eq_left (by omega), max_eq_right (by omega)]

/-- Claim C9 counterexample: on the pair list `[(50, -1)]` the code returns 0
(it guards on a non-positive weight sum), while the claimed formula
`clamp(round(Σ(clamp(v)·w) / Σw))` evaluates to `round(clamp(50·(-1)/(-1))) =
50`. -/
theorem score_weighted_negative_weight_zeroed :
    score_weighted [(some 50, -1)] = 0 ∧ score_weighted_claim [(some 50, -1)] = 50 := by
  constructor
  · unfold score_weighted
    rw [show [((some (50 : ℚ)), (-1 : ℚ))].filterMap
        (fun vw => match vw.1 with | some v => some (v, vw.2) | none => none)
        = [((50 : ℚ), (-1 : ℚ))] from rfl]
    simp only []
    rw [if_pos (by
      simp only [List.map_cons, List.map_nil, List.sum_cons, List.sum_nil]
      norm_num)]
  · unfold score_weighted_claim
    rw [show [((some (50 : ℚ)), (-1 : ℚ))].filterMap
        (fun vw => match vw.1 with | some v => some (v, vw.2) | none => none)
        = [((50 : ℚ), (-1 : ℚ))] from rfl]
    simp only [List.map_cons, List.map_nil, List.sum_cons, List.sum_nil]
    have hc : clamp (50 : ℚ) = 50 := by
      unfold clamp
      rw [min_eq_right (by norm_num), max_eq_right (by norm_num)]
    rw [hc]
    rw [show ((50 : ℚ) * (-1) + 0) / (-1 + 0) = 50 by norm_num]
    rw [show roundHalfEven (50 : ℚ) = 50 from
      roundHalfEven_eq_low 50 50 (by norm_num) (by norm_num)]
    rw [min_eq_right (by norm_num), max_eq_right (by norm_num)]

/-- Claim C9 (amended): the combinator drops undefined values; if none remain
*or the remaining weights sum to at most 0*, the result is 0; otherwise it is
`round(Σ(clamp(value)·weight) / Σweight)` clamped to `[0, 100]` (the code
clamps before rounding, which yields the same integer).  All-undefined inputs
give 0, and a single value 150 contributes as 100. -/
theorem score_weighted_spec_correct :
    (∀ parts : List (Option ℚ × ℚ), score_weighted parts = score_weighted_spec parts)
    ∧ score_weighted [(none, 3/5), (none, 2/5)] = 0
    ∧ score_weighted [(some 150, 1)] = 100 := by
  refine ⟨fun parts => ?_, by rfl, ?_⟩
  · unfold score_weighted score_weighted_spec
    cases hus : parts.filterMap
        (fun vw => match vw.1 with | some v => some (v, vw.2) | none => none) with
    | nil => rfl
    | cons p rest =>
      simp only []
      split_ifs with hw
      · rfl
      · exact roundHalfEven_clamp _
  · unfold score_weighted
    rw [show [((some (150 : ℚ)), (1 : ℚ))].filterMap
        (fun vw => match vw.1 with | some v => some (v, vw.2) | none => none)
        = [((150 : ℚ), (1 : ℚ))] from rfl]
    simp only []
    rw [if_neg (by
      simp only [List.map_cons, List.map_nil, List.sum_cons, List.sum_nil]
      norm_num)]
    simp only [List.map_cons, List.map_nil, List.sum_cons, List.sum_nil]
    have hc150 : clamp (150 : ℚ) = 100 := by
      unfold clamp
      rw [min_eq_left (by norm_num), max_eq_right (by norm_num)]
    rw [hc150]
    rw [show ((100 : ℚ) * 1 + 0) / (1 + 0) = 100 by norm_num]
    have hc100 : clamp (100 : ℚ) = 100 := by
      unfold clamp
      rw [min_eq_left (by norm_num), max_eq_right (by norm_num)]
    rw [hc100, roundHalfEven_hundred]

/-! ## The newest-products sort (claim C1) -/

/-- Claim C1 (code bug): on a Record Set with one record carrying a parsable
`created_at` and one record with no dates at all — both legal inputs —
`analyze_products` raises `TypeError` while building the `newest_products`
list (analyze.py line 619): the sort key falls back to the timezone-naive
`datetime.min` for the undated record while dated records get timezone-aware
keys, and Python refuses to compare naive with aware datetimes. -/
theorem newest_sort_raises_on_mixed_dates :
    newest_sort [recDated, recBare] =
      Except.error "TypeError: cannot compare offset-naive and offset-aware datetimes" := by
  rfl

/-! ## Clock dependence (claim C2) -/

/-- Claim C2 counterexample: the identical single-record Record Set analyzed
at two wall-clock instants one second apart yields different values of
`new_vs_old.created.d30.count` — a field other than `generated_at` — because
the 30-day window cutoff moves with the clock (the record's creation instant
sits exactly on the first cutoff). -/
theorem created_30_depends_on_clock :
    (analyze_slice 2592000 [recCreatedAtZero]).created_30 = 1 ∧
      (analyze_slice 2592001 [recCreatedAtZero]).created_30 = 0 := by
  constructor <;> rfl

/-- Claim C2 (amended): all wall-clock input enters through the window
cutoffs; the clock-independent sections — catalog totals and stock counts,
price statistics, discount statistics, the comparative discount median and
the bulk dominant percentage — are byte-identical across two invocations on
the same Record Set at *any* two instants, while window-derived fields (such
as the created-in-30-days count) and `generated_at` may differ between
instants. -/
theorem analyze_slice_clock_free_fields (now now' : Int) (ps : List Record) :
    (analyze_slice now ps).total = (analyze_slice now' ps).total ∧
    (analyze_slice now ps).in_stock_count = (analyze_slice now' ps).in_stock_count ∧
    (analyze_slice now ps).in_stock_pct = (analyze_slice now' ps).in_stock_pct ∧
    (analyze_slice now ps).out_of_stock_count = (analyze_slice now' ps).out_of_stock_count ∧
    (analyze_slice now ps).out_of_stock_pct = (analyze_slice now' ps).out_of_stock_pct ∧
    (analyze_slice now ps).price_min = (analyze_slice now' ps).price_min ∧
    (analyze_slice now ps).price_max = (analyze_slice now' ps).price_max ∧
    (analyze_slice now ps).price_median = (analyze_slice now' ps).price_median ∧
    (analyze_slice now ps).discounted_count = (analyze_slice now' ps).discounted_count ∧
    (analyze_slice now ps).discounted_pct = (analyze_slice now' ps).discounted_pct ∧
    (analyze_slice now ps).median_discount_pct = (analyze_slice now' ps).median_discount_pct ∧
    (analyze_slice now ps).bulk_update_dominant_pct
      = (analyze_slice now' ps).bulk_update_dominant_pct :=
  ⟨rfl, rfl, rfl, rfl, rfl, rfl, rfl, rfl, rfl, rfl, rfl, rfl⟩

/-! ## Percentage bounds (claim C8) -/

/-- Claim C8 counterexample: with two records priced 10 created long ago and
one record priced 1000 created within the 90-day window, the report's
`comparisons.new_products.price_delta_pct` is `9900.0` — a percentage field
far outside `[0, 100]` (it is a signed relative change, not a share). -/
theorem price_delta_pct_exceeds_100 :
    (analyze_slice (300 * 86400) psDelta).new_products_price_delta_pct = some 9900 ∧
      ¬ ((9900 : ℚ) ≤ 100) := by
  constructor
  · have hfield : (analyze_slice (300 * 86400) psDelta).new_products_price_delta_pct
        = delta_pct (median_or_none ([(1000 : ℚ)].map some))
            (pymedian [(10 : ℚ), 10, 1000]) := rfl
    have hnew : median_or_none ([(1000 : ℚ)].map some) = some (round2 1000) := rfl
    have hmed : pymedian [(10 : ℚ), 10, 1000] = some 10 := rfl
    have h1000 : round2 (1000 : ℚ) = 1000 := by
      simp only [round2]
      rw [show roundHalfEven ((1000 : ℚ) * 100) = 100000 from
        roundHalfEven_eq_low 100000 _ (by norm_num) (by norm_num)]
      norm_num
    rw [hfield, hnew, hmed, h1000]
    unfold delta_pct
    simp only []
    rw [if_neg (by norm_num)]
    rw [show ((1000 : ℚ) - 10) / 10 * 100 = 9900 by norm_num]
    rw [show round2 (9900 : ℚ) = 9900 by
      simp only [round2]
      rw [show roundHalfEven ((9900 : ℚ) * 100) = 990000 from
        roundHalfEven_eq_low 990000 _ (by norm_num) (by norm_num)]
      norm_num]
  · norm_num

theorem length_filter_bool_add {α : Type _} (p : α → Bool) (l : List α) :
    (l.filter p).length + (l.filter (fun a => !p a)).length = l.length := by
  induction l with
  | nil => rfl
  | cons x xs ih =>
    rcases hpx : p x with _ | _ <;> simp [List.filter_cons, hpx] <;> omega

theorem mostCommon1_count_le (l : List Int) (kc : Int × Nat)
    (h : mostCommon1 l = some kc) : kc.2 ≤ l.length := by
  have hinv : ∀ (xs : List Int) (acc : Option (Int × Nat)),
      (acc = none ∨ ∃ k, acc = some (k, l.count k)) →
      (xs.foldl (mcStep l) acc = none ∨
        ∃ k, xs.foldl (mcStep l) acc = some (k, l.count k)) := by
    intro xs
    induction xs with
    | nil => intro acc hacc; exact hacc
    | cons x xs ih =>
      intro acc hacc
      rw [List.foldl_cons]
      apply ih
      rcases hacc with rfl | ⟨k, rfl⟩
      · right
        exact ⟨x, rfl⟩
      · simp only [mcStep]
        split_ifs
        · right
          exact ⟨x, rfl⟩
        · right
          exact ⟨k, rfl⟩
  have := hinv l none (Or.inl rfl)
  rw [mostCommon1] at h
  rcases this with hnone | ⟨k, hk⟩
  · rw [h] at hnone
    cases hnone
  · rw [h] at hk
    have hkc : kc = (k, l.count k) := by injection hk
    rw [hkc]
    exact List.count_le_length k l

theorem detect_dominant_pct_bounds (u : List Int) :
    0 ≤ (detect_bulk_update_spike u).2.2 ∧ (detect_bulk_update_spike u).2.2 ≤ 100 := by
  rcases hmc : mostCommon1 (u.map bucketDay) with _ | kc
  · simp only [detect_bulk_update_spike, hmc]
    split_ifs <;> norm_num
  · simp only [detect_bulk_update_spike, hmc]
    by_cases h1 : u.isEmpty = true
    · rw [if_pos h1]
      norm_num
    · rw [if_neg h1]
      have hle : kc.2 ≤ u.length := by
          have h2 := mostCommon1_count_le (u.map bucketDay) kc hmc
          simpa using h2
      have hlen0 : u ≠ [] := by
        intro hu
        rw [hu] at h1
        exact h1 rfl
      have hpos : (0 : ℚ) < (u.length : ℚ) := by
        have h3 : 0 < u.length := List.length_pos.mpr hlen0
        exact_mod_cast h3
      have hcast : (kc.2 : ℚ) ≤ (u.length : ℚ) := by exact_mod_cast hle
      constructor
      · apply round1_nonneg
        positivity
      · apply round1_le_100
        rw [div_le_iff₀ hpos]
        linarith

/-- Claim C8 (amended): the catalog section always satisfies
`in_stock_count + out_of_stock_count = total_products`; every *share*
percentage (stock shares, window shares, discounted share, the bulk dominant
percentage) lies in `[0, 100]`; and `pct` maps a zero denominator to `0.0`
instead of raising.  Delta/acceleration percentage fields are signed relative
changes that may leave `[0, 100]` (see the counterexample) and are null — not
`0.0` — on a zero base. -/
theorem catalog_sums_and_share_bounds (now : Int) (ps : List Record) :
    (analyze_slice now ps).in_stock_count + (analyze_slice now ps).out_of_stock_count
        = (analyze_slice now ps).total ∧
    (0 ≤ (analyze_slice now ps).in_stock_pct ∧ (analyze_slice now ps).in_stock_pct ≤ 100) ∧
    (0 ≤ (analyze_slice now ps).out_of_stock_pct ∧
        (analyze_slice now ps).out_of_stock_pct ≤ 100) ∧
    (0 ≤ (analyze_slice now ps).created_30_pct ∧
        (analyze_slice now ps).created_30_pct ≤ 100) ∧
    (0 ≤ (analyze_slice now ps).discounted_pct ∧
        (analyze_slice now ps).discounted_pct ≤ 100) ∧
    (0 ≤ (analyze_slice now ps).bulk_update_dominant_pct ∧
        (analyze_slice now ps).bulk_update_dominant_pct ≤ 100) ∧
    (∀ n : Nat, pct n 0 = 0) := by
  refine ⟨?_, ⟨pct_nonneg _ _, pct_le_100 _ _ (List.length_filter_le _ _)⟩,
    ⟨pct_nonneg _ _, pct_le_100 _ _ (List.length_filter_le _ _)⟩,
    ⟨pct_nonneg _ _, pct_le_100 _ _ ?_⟩,
    ⟨pct_nonneg _ _, pct_le_100 _ _ (List.length_filterMap_le _ _)⟩,
    ⟨(detect_dominant_pct_bounds _).1, (detect_dominant_pct_bounds _).2⟩,
    fun n => rfl⟩
  · exact length_filter_bool_add (fun p => p.available) ps
  · calc (ps.map (fun p => p.created_at)).countP _ ≤ (ps.map (fun p => p.created_at)).length :=
          List.countP_le_length _
      _ = ps.length := List.length_map _ _

/-! ## String toolkit for the deduplication claim (C7) -/

theorem get_append_small (a b : Str) : ∀ i, i < a.length → (a ++ b).get? i = a.get? i := by
  induction a with
  | nil =>
    intro i h
    simp at h
  | cons c a ih =>
    intro i h
    cases i with
    | zero => rfl
    | succ j => exact ih j (by simpa using h)

theorem ne_of_get (x y : Str) (i : Nat) (cx cy : Char) (hx : x.get? i = some cx)
    (hy : y.get? i = some cy) (hne : cx ≠ cy) : x ≠ y := by
  intro e
  rw [e, hy] at hx
  injection hx with h
  exact hne h.symm

theorem get_lit (lit rest : Str) (i : Nat) (c : Char) (h1 : i < lit.length)
    (h2 : lit.get? i = some c) : (lit ++ rest).get? i = some c := by
  rw [get_append_small lit rest i h1]
  exact h2

theorem mem_opt_singleton {c : Prop} [Decidable c] {a x : Str}
    (h : x ∈ (if c then [a] else [])) : x = a := by
  split at h
  · simpa using h
  · simp at h

theorem opt_nodup {c : Prop} [Decidable c] (a : Str) : (if c then [a] else []).Nodup := by
  split
  · simp
  · simp

theorem nodup_append_of (l₁ l₂ : List Str) (h₁ : l₁.Nodup) (h₂ : l₂.Nodup)
    (h : ∀ x ∈ l₁, ∀ y ∈ l₂, x ≠ y) : (l₁ ++ l₂).Nodup := by
  rw [List.nodup_append]
  exact ⟨h₁, h₂, fun a ha hb => h a ha a hb rfl⟩

theorem addUnique_nodup (l : List Str) (n : Str) (h : l.Nodup) : (addUnique l n).Nodup := by
  unfold addUnique
  split_ifs with hm
  · exact h
  · rw [List.nodup_append]
    refine ⟨h, List.nodup_singleton n, ?_⟩
    intro a ha hb
    have : a = n := by simpa using hb
    rw [this] at ha
    exact hm ha

theorem foldl_addUnique_nodup (ex : List Str) (l : List Str) (h : l.Nodup) :
    (ex.foldl addUnique l).Nodup := by
  induction ex generalizing l with
  | nil => exact h
  | cons x xs ih => exact ih _ (addUnique_nodup l x h)

/-! ## Rendered-number alphabet -/

theorem digitChar_num (d : Nat) : isNumChar (digitChar d) = true := by
  unfold digitChar
  rcases lt_or_le d 10 with h | h
  · interval_cases d <;> decide
  · rw [List.getD_eq_default]
    · decide
    · simpa using h

theorem natDigitsAux_num (fuel : Nat) : ∀ n, allNum (natDigitsAux fuel n) := by
  induction fuel with
  | zero =>
    intro n c hc
    simp [natDigitsAux] at hc
  | succ f ih =>
    intro n c hc
    simp only [natDigitsAux] at hc
    split_ifs at hc with h
    · have hce : c = digitChar n := by simpa using hc
      rw [hce]
      exact digitChar_num n
    · rcases List.mem_append.mp hc with h1 | h2
      · exact ih _ c h1
      · have hce : c = digitChar (n % 10) := by simpa using h2
        rw [hce]
        exact digitChar_num _

theorem natDigits_num (n : Nat) : allNum (natDigits n) := natDigitsAux_num _ _

theorem natDigits_ne_nil (n : Nat) : natDigits n ≠ [] := by
  unfold natDigits
  simp only [natDigitsAux]
  split_ifs
  · simp
  · simp

theorem renderQ_num (q : ℚ) : allNum (renderQ q) := by
  intro c hc
  unfold renderQ at hc
  rcases List.mem_append.mp hc with h1 | h2
  · rcases List.mem_append.mp h1 with h0 | hd
    · split_ifs at h0
      · have hce : c = '-' := by simpa using h0
        rw [hce]
        decide
      · simp at h0
    · exact natDigits_num _ c hd
  · rcases List.mem_cons.mp h2 with rfl | hd
    · decide
    · exact natDigits_num _ c hd

theorem renderQ_ne_nil (q : ℚ) : renderQ q ≠ [] := by
  unfold renderQ
  intro h
  rcases List.append_eq_nil.mp h with ⟨h1, h2⟩
  simp at h2

theorem renderSigned_num (q : ℚ) : allNum (renderSigned q) := by
  intro c hc
  unfold renderSigned at hc
  rcases List.mem_append.mp hc with h1 | h2
  · split_ifs at h1
    · have hce : c = '-' := by simpa using h1
      rw [hce]
      decide
    · have hce : c = '+' := by simpa using h1
      rw [hce]
      decide
  · exact natDigits_num _ c h2

theorem renderSigned_ne_nil (q : ℚ) : renderSigned q ≠ [] := by
  unfold renderSigned
  intro h
  rcases List.append_eq_nil.mp h with ⟨h1, h2⟩
  split_ifs at h1

/-! ## Cancelling a leading rendered number -/

theorem num_payload_cancel (t₁ t₂ : Str)
    (h₁ : ∀ c, t₁.get? 0 = some c → isNumChar c = false)
    (h₂ : ∀ c, t₂.get? 0 = some c → isNumChar c = false) :
    ∀ a b : Str, allNum a → allNum b → a ++ t₁ = b ++ t₂ → t₁ = t₂ := by
  intro a
  induction a with
  | nil =>
    intro b ha hb e
    rcases b with _ | ⟨d, b'⟩
    · simpa using e
    · exfalso
      simp only [List.nil_append, List.cons_append] at e
      have hd := h₁ d (by rw [e]; rfl)
      have ht : isNumChar d = true := hb d (by simp)
      rw [ht] at hd
      cases hd
  | cons c a' ih =>
    intro b ha hb e
    rcases b with _ | ⟨d, b'⟩
    · exfalso
      simp only [List.nil_append, List.cons_append] at e
      have hd := h₂ c (by rw [← e]; rfl)
      have ht : isNumChar c = true := ha c (by simp)
      rw [ht] at hd
      cases hd
    · simp only [List.cons_append, List.cons.injEq] at e
      exact ih b' (fun x hx => ha x (by simp [hx])) (fun x hx => hb x (by simp [hx])) e.2

theorem head_lit_not_num (lit rest : Str) (c₀ : Char) (h1 : 0 < lit.length)
    (h2 : lit.get? 0 = some c₀) (h3 : isNumChar c₀ = false) :
    ∀ c, (lit ++ rest).get? 0 = some c → isNumChar c = false := by
  intro c hc
  rw [get_append_small lit rest 0 h1, h2] at hc
  injection hc with h
  rw [← h]
  exact h3

theorem numled_ne_other (a t s : Str) (ha : allNum a) (hne : a ≠ [])
    (c₀ : Char) (hs : s.get? 0 = some c₀) (hc : isNumChar c₀ = false) :
    a ++ t ≠ s := by
  rcases a with _ | ⟨c, a'⟩
  · exact absurd rfl hne
  · apply ne_of_get ((c :: a') ++ t) s 0 c c₀ (by rfl) hs
    intro h
    have ht : isNumChar c = true := ha c (by simp)
    rw [h, hc] at ht
    cases ht

/-! ## Head classes of the templates -/

theorem ne_of_headClass_disjoint (x y : Str) (lx ly : List Nat) (hx : headClass x ∈ lx)
    (hy : headClass y ∈ ly) (h : ∀ a ∈ lx, a ∉ ly) : x ≠ y := by
  intro e
  rw [e] at hx
  exact h _ hx hy

theorem headClass_lit (lit rest : Str) (c : Char) (h1 : 0 < lit.length)
    (h2 : lit.get? 0 = some c) : headClass (lit ++ rest) = classChar c := by
  unfold headClass
  rw [get_append_small _ _ 0 h1, h2]

theorem headClass_numled (a t : Str) (ha : allNum a) (hne : a ≠ []) :
    headClass (a ++ t) = 0 := by
  rcases a with _ | ⟨c, a'⟩
  · exact absurd rfl hne
  · have hc : isNumChar c = true := ha c (by simp)
    unfold headClass
    rw [show ((c :: a') ++ t).get? 0 = some c from rfl]
    simp [classChar, hc]

theorem headClass_tkVelocitySlot (v : ℚ) : headClass (tkVelocitySlot v) ∈ [1, 2, 3] := by
  unfold tkVelocitySlot tkVelocityHigh tkVelocityModerate tkVelocityLow
  split_ifs
  · simp only [List.append_assoc]
    rw [headClass_lit _ _ 'H' (by decide) (by decide)]
    decide
  · simp only [List.append_assoc]
    rw [headClass_lit _ _ 'M' (by decide) (by decide)]
    decide
  · simp only [List.append_assoc]
    rw [headClass_lit _ _ 'L' (by decide) (by decide)]
    decide

theorem headClass_tkAccel (a : Str) : headClass (tkAccel a) ∈ [3] := by
  unfold tkAccel
  simp only [List.append_assoc]
  rw [headClass_lit _ _ 'L' (by decide) (by decide)]
  decide

theorem headClass_tkDecel (a : Str) : headClass (tkDecel a) ∈ [3] := by
  unfold tkDecel
  simp only [List.append_assoc]
  rw [headClass_lit _ _ 'L' (by decide) (by decide)]
  decide

theorem headClass_tkStrategy (st : Strategy) (n c d : Str) :
    headClass (tkStrategy (strategyStr st) n c d) ∈ [4, 5, 6] := by
  cases st with
  | premium =>
    unfold tkStrategy strategyStr
    simp only [List.append_assoc]
    rw [headClass_lit _ _ 'P' (by decide) (by decide)]
    decide
  | budget =>
    unfold tkStrategy strategyStr
    simp only [List.append_assoc]
    rw [headClass_lit _ _ 'B' (by decide) (by decide)]
    decide
  | consistent =>
    unfold tkStrategy strategyStr
    simp only [List.append_assoc]
    rw [headClass_lit _ _ 'C' (by decide) (by decide)]
    decide

theorem headClass_tkFresh (p : ℚ) (c : Nat) :
    headClass (tkFresh (renderQ p) (natDigits c)) ∈ [0] := by
  unfold tkFresh
  simp only [List.append_assoc]
  rw [headClass_numled _ _ (renderQ_num p) (renderQ_ne_nil p)]
  decide

theorem headClass_tkInStockSlot (q : ℚ) : headClass (tkInStockSlot q) ∈ [0] := by
  unfold tkInStockSlot tkInStock
  simp only [List.append_assoc]
  rw [headClass_numled _ _ (renderQ_num q) (renderQ_ne_nil q)]
  decide

theorem headClass_tkDiscountSlot (q : ℚ) : headClass (tkDiscountSlot q) ∈ [0] := by
  unfold tkDiscountSlot tkDiscount
  simp only [List.append_assoc]
  rw [headClass_numled _ _ (renderQ_num q) (renderQ_ne_nil q)]
  decide

theorem headClass_tkPricing (a b e : Str) : headClass (tkPricing a b e) ∈ [4] := by
  unfold tkPricing
  simp only [List.append_assoc]
  rw [headClass_lit _ _ 'P' (by decide) (by decide)]
  decide

theorem headClass_tkBand (bl p : Str) : headClass (tkBand bl p) ∈ [7] := by
  unfold tkBand
  simp only [List.append_assoc]
  rw [headClass_lit _ _ 'T' (by decide) (by decide)]
  decide

theorem headClass_tkSkewSlot (md nm : ℚ) : headClass (tkSkewSlot md nm) ∈ [8] := by
  unfold tkSkewSlot tkSkewAbove tkSkewBelow tkSkewNear
  split_ifs <;> decide

theorem headClass_tkVariantsSlot (av : ℚ) : headClass (tkVariantsSlot av) ∈ [2, 4] := by
  unfold tkVariantsSlot tkVariantsFew tkVariantsMany
  split_ifs <;> decide

theorem headClass_cnZeroPrice (c : Nat) : headClass (cnZeroPrice (natDigits c)) ∈ [0] := by
  unfold cnZeroPrice
  rw [headClass_numled _ _ (natDigits_num c) (natDigits_ne_nil c)]
  decide

theorem headClass_cnNoPricing : headClass cnNoPricing ∈ [8] := by decide

theorem headClass_cnCreatedMissing (p : ℚ) :
    headClass (cnCreatedMissing (renderQ p)) ∈ [6] := by
  unfold cnCreatedMissing
  simp only [List.append_assoc]
  rw [headClass_lit _ _ 'C' (by decide) (by decide)]
  decide

theorem headClass_cnUpdatedMissing (p : ℚ) :
    headClass (cnUpdatedMissing (renderQ p)) ∈ [9] := by
  unfold cnUpdatedMissing
  simp only [List.append_assoc]
  rw [headClass_lit _ _ 'U' (by decide) (by decide)]
  decide

theorem headClass_cnLowDiscount : headClass cnLowDiscount ∈ [3] := by decide

theorem headClass_cnBulk (p : ℚ) (b : Str) (ap : Bool) :
    headClass (cnBulk (renderQ p) b ap) ∈ [9] := by
  unfold cnBulk
  simp only [List.append_assoc]
  rw [headClass_lit _ _ 'U' (by decide) (by decide)]
  decide

theorem headClass_cnProvenance : headClass cnProvenance ∈ [7] := by decide

theorem headClass_cnDateCoverage (p q : ℚ) :
    headClass (cnDateCoverage (renderQ p) (renderQ q)) ∈ [10] := by
  unfold cnDateCoverage
  simp only [List.append_assoc]
  rw [headClass_lit _ _ 'D' (by decide) (by decide)]
  decide

theorem headClass_cnPricingCoverage (p : ℚ) :
    headClass (cnPricingCoverage (renderQ p)) ∈ [4] := by
  unfold cnPricingCoverage
  simp only [List.append_assoc]
  rw [headClass_lit _ _ 'P' (by decide) (by decide)]
  decide

theorem headClass_cnDiscountCoverage (p : ℚ) :
    headClass (cnDiscountCoverage (renderQ p)) ∈ [10] := by
  unfold cnDiscountCoverage
  simp only [List.append_assoc]
  rw [headClass_lit _ _ 'D' (by decide) (by decide)]
  decide

theorem headClass_cnHtml404 : headClass cnHtml404 ∈ [11] := by decide

theorem headClass_cnNoProducts : headClass cnNoProducts ∈ [8] := by decide

/-! ## Template pairs sharing a head class -/

theorem numled_pair_ne (a₁ t₁ a₂ t₂ : Str) (ha₁ : allNum a₁) (ha₂ : allNum a₂)
    (h₁ : ∀ c, t₁.get? 0 = some c → isNumChar c = false)
    (h₂ : ∀ c, t₂.get? 0 = some c → isNumChar c = false)
    (hts : t₁ ≠ t₂) : a₁ ++ t₁ ≠ a₂ ++ t₂ := fun e =>
  hts (num_payload_cancel t₁ t₂ h₁ h₂ a₁ a₂ ha₁ ha₂ e)

theorem tkVelocitySlot_ne_tkAccel (v : ℚ) (a : Str) : tkVelocitySlot v ≠ tkAccel a := by
  unfold tkVelocitySlot tkVelocityHigh tkVelocityModerate tkVelocityLow tkAccel
  simp only [List.append_assoc]
  split_ifs
  · exact ne_of_get _ _ 0 'H' 'L' (get_lit _ _ 0 'H' (by decide) (by decide))
      (get_lit _ _ 0 'L' (by decide) (by decide)) (by decide)
  · exact ne_of_get _ _ 0 'M' 'L' (get_lit _ _ 0 'M' (by decide) (by decide))
      (get_lit _ _ 0 'L' (by decide) (by decide)) (by decide)
  · exact ne_of_get _ _ 1 'o' 'a' (get_lit _ _ 1 'o' (by decide) (by decide))
      (get_lit _ _ 1 'a' (by decide) (by decide)) (by decide)

theorem tkVelocitySlot_ne_tkDecel (v : ℚ) (a : Str) : tkVelocitySlot v ≠ tkDecel a := by
  unfold tkVelocitySlot tkVelocityHigh tkVelocityModerate tkVelocityLow tkDecel
  simp only [List.append_assoc]
  split_ifs
  · exact ne_of_get _ _ 0 'H' 'L' (get_lit _ _ 0 'H' (by decide) (by decide))
      (get_lit _ _ 0 'L' (by decide) (by decide)) (by decide)
  · exact ne_of_get _ _ 0 'M' 'L' (get_lit _ _ 0 'M' (by decide) (by decide))
      (get_lit _ _ 0 'L' (by decide) (by decide)) (by decide)
  · exact ne_of_get _ _ 1 'o' 'a' (get_lit _ _ 1 'o' (by decide) (by decide))
      (get_lit _ _ 1 'a' (by decide) (by decide)) (by decide)

theorem tkAccel_ne_tkDecel (a b : Str) : tkAccel a ≠ tkDecel b := by
  unfold tkAccel tkDecel
  simp only [List.append_assoc]
  exact ne_of_get _ _ 12 'a' 'd' (get_lit _ _ 12 'a' (by decide) (by decide))
    (get_lit _ _ 12 'd' (by decide) (by decide)) (by decide)

theorem tkVelocitySlot_ne_tkVariantsSlot (v av : ℚ) :
    tkVelocitySlot v ≠ tkVariantsSlot av := by
  unfold tkVelocitySlot tkVelocityHigh tkVelocityModerate tkVelocityLow
    tkVariantsSlot tkVariantsFew tkVariantsMany
  simp only [List.append_assoc]
  split_ifs
  · exact ne_of_get _ _ 0 'H' 'M' (get_lit _ _ 0 'H' (by decide) (by decide))
      (by decide) (by decide)
  · exact ne_of_get _ _ 0 'H' 'P' (get_lit _ _ 0 'H' (by decide) (by decide))
      (by decide) (by decide)
  · exact ne_of_get _ _ 2 'd' 's' (get_lit _ _ 2 'd' (by decide) (by decide))
      (by decide) (by decide)
  · exact ne_of_get _ _ 0 'M' 'P' (get_lit _ _ 0 'M' (by decide) (by decide))
      (by decide) (by decide)
  · exact ne_of_get _ _ 0 'L' 'M' (get_lit _ _ 0 'L' (by decide) (by decide))
      (by decide) (by decide)
  · exact ne_of_get _ _ 0 'L' 'P' (get_lit _ _ 0 'L' (by decide) (by decide))
      (by decide) (by decide)

theorem tkStrategy_ne_tkPricing (st : Strategy) (n c d a b e : Str) :
    tkStrategy (strategyStr st) n c d ≠ tkPricing a b e := by
  cases st with
  | premium =>
    unfold tkStrategy strategyStr tkPricing
    simp only [List.append_assoc]
    exact ne_of_get _ _ 2 'e' 'i' (get_lit _ _ 2 'e' (by decide) (by decide))
      (get_lit _ _ 2 'i' (by decide) (by decide)) (by decide)
  | budget =>
    unfold tkStrategy strategyStr tkPricing
    simp only [List.append_assoc]
    exact ne_of_get _ _ 0 'B' 'P' (get_lit _ _ 0 'B' (by decide) (by decide))
      (get_lit _ _ 0 'P' (by decide) (by decide)) (by decide)
  | consistent =>
    unfold tkStrategy strategyStr tkPricing
    simp only [List.append_assoc]
    exact ne_of_get _ _ 0 'C' 'P' (get_lit _ _ 0 'C' (by decide) (by decide))
      (get_lit _ _ 0 'P' (by decide) (by decide)) (by decide)

theorem tkStrategy_ne_tkVariantsSlot (st : Strategy) (n c d : Str) (av : ℚ) :
    tkStrategy (strategyStr st) n c d ≠ tkVariantsSlot av := by
  cases st with
  | premium =>
    unfold tkStrategy strategyStr tkVariantsSlot tkVariantsFew tkVariantsMany
    simp only [List.append_assoc]
    split_ifs
    · exact ne_of_get _ _ 0 'P' 'M' (get_lit _ _ 0 'P' (by decide) (by decide))
        (by decide) (by decide)
    · exact ne_of_get _ _ 2 'e' 'o' (get_lit _ _ 2 'e' (by decide) (by decide))
        (by decide) (by decide)
  | budget =>
    unfold tkStrategy strategyStr tkVariantsSlot tkVariantsFew tkVariantsMany
    simp only [List.append_assoc]
    split_ifs
    · exact ne_of_get _ _ 0 'B' 'M' (get_lit _ _ 0 'B' (by decide) (by decide))
        (by decide) (by decide)
    · exact ne_of_get _ _ 0 'B' 'P' (get_lit _ _ 0 'B' (by decide) (by decide))
        (by decide) (by decide)
  | consistent =>
    unfold tkStrategy strategyStr tkVariantsSlot tkVariantsFew tkVariantsMany
    simp only [List.append_assoc]
    split_ifs
    · exact ne_of_get _ _ 0 'C' 'M' (get_lit _ _ 0 'C' (by decide) (by decide))
        (by decide) (by decide)
    · exact ne_of_get _ _ 0 'C' 'P' (get_lit _ _ 0 'C' (by decide) (by decide))
        (by decide) (by decide)

theorem tkPricing_ne_tkVariantsSlot (a b e : Str) (av : ℚ) :
    tkPricing a b e ≠ tkVariantsSlot av := by
  unfold tkPricing tkVariantsSlot tkVariantsFew tkVariantsMany
  simp only [List.append_assoc]
  split_ifs
  · exact ne_of_get _ _ 0 'P' 'M' (get_lit _ _ 0 'P' (by decide) (by decide))
      (by decide) (by decide)
  · exact ne_of_get _ _ 2 'i' 'o' (get_lit _ _ 2 'i' (by decide) (by decide))
      (by decide) (by decide)

theorem tkFresh_ne_tkInStockSlot (p : ℚ) (c : Nat) (q : ℚ) :
    tkFresh (renderQ p) (natDigits c) ≠ tkInStockSlot q := by
  unfold tkFresh tkInStockSlot tkInStock
  simp only [List.append_assoc]
  apply numled_pair_ne _ _ _ _ (renderQ_num p) (renderQ_num q)
    (head_lit_not_num _ _ '%' (by decide) (by decide) (by decide))
    (head_lit_not_num _ _ '%' (by decide) (by decide) (by decide))
  exact ne_of_get _ _ 5 'c' 'p' (get_lit _ _ 5 'c' (by decide) (by decide))
    (get_lit _ _ 5 'p' (by decide) (by decide)) (by decide)

theorem tkFresh_ne_tkDiscountSlot (p : ℚ) (c : Nat) (q : ℚ) :
    tkFresh (renderQ p) (natDigits c) ≠ tkDiscountSlot q := by
  unfold tkFresh tkDiscountSlot tkDiscount
  simp only [List.append_assoc]
  apply numled_pair_ne _ _ _ _ (renderQ_num p) (renderQ_num q)
    (head_lit_not_num _ _ '%' (by decide) (by decide) (by decide))
    (head_lit_not_num _ _ '%' (by decide) (by decide) (by decide))
  exact ne_of_get _ _ 5 'c' 'p' (get_lit _ _ 5 'c' (by decide) (by decide))
    (get_lit _ _ 5 'p' (by decide) (by decide)) (by decide)

theorem tkInStockSlot_ne_tkDiscountSlot (p q : ℚ) :
    tkInStockSlot p ≠ tkDiscountSlot q := by
  unfold tkInStockSlot tkInStock tkDiscountSlot tkDiscount
  simp only [List.append_assoc]
  apply numled_pair_ne _ _ _ _ (renderQ_num p) (renderQ_num q)
    (head_lit_not_num _ _ '%' (by decide) (by decide) (by decide))
    (head_lit_not_num _ _ '%' (by decide) (by decide) (by decide))
  exact ne_of_get _ _ 14 'a' 's' (get_lit _ _ 14 'a' (by decide) (by decide))
    (get_lit _ _ 14 's' (by decide) (by decide)) (by decide)

theorem cnUpdatedMissing_ne_cnBulk (p q : ℚ) (b : Str) (ap : Bool) :
    cnUpdatedMissing (renderQ p) ≠ cnBulk (renderQ q) b ap := by
  unfold cnUpdatedMissing cnBulk
  simp only [List.append_assoc]
  exact ne_of_get _ _ 6 'd' ' ' (get_lit _ _ 6 'd' (by decide) (by decide))
    (get_lit _ _ 6 ' ' (by decide) (by decide)) (by decide)

theorem cnDateCoverage_ne_cnDiscountCoverage (p q r : ℚ) :
    cnDateCoverage (renderQ p) (renderQ q) ≠ cnDiscountCoverage (renderQ r) := by
  unfold cnDateCoverage cnDiscountCoverage
  simp only [List.append_assoc]
  exact ne_of_get _ _ 1 'a' 'i' (get_lit _ _ 1 'a' (by decide) (by decide))
    (get_lit _ _ 1 'i' (by decide) (by decide)) (by decide)

/-! ## No duplicate takeaways -/

theorem buildTakeaways_nodup (P : TParams) : (buildTakeaways P).Nodup := by
  unfold buildTakeaways
  by_cases ht : P.total ≠ 0
  case neg =>
    rw [if_neg ht, if_neg ht]
    simp
  case pos =>
    rw [if_pos ht, if_pos ht]
    simp only [List.append_assoc]
    apply nodup_append_of
    · simp
    · apply nodup_append_of
      · exact opt_nodup _
      · apply nodup_append_of
        · exact opt_nodup _
        · apply nodup_append_of
          · exact opt_nodup _
          · apply nodup_append_of
            · exact opt_nodup _
            · apply nodup_append_of
              · simp
              · apply nodup_append_of
                · simp
                · apply nodup_append_of
                  · exact opt_nodup _
                  · apply nodup_append_of
                    · exact opt_nodup _
                    · apply nodup_append_of
                      · exact opt_nodup _
                      · exact opt_nodup _
                      · intro x hx y hy
                        rw [mem_opt_singleton hx, mem_opt_singleton hy]
                        exact ne_of_headClass_disjoint _ _ _ _
                          (headClass_tkSkewSlot _ _) (headClass_tkVariantsSlot _)
                          (by decide)
                    · intro x hx y hy
                      rw [mem_opt_singleton hx]
                      simp only [List.mem_append] at hy
                      rcases hy with hy | hy
                      · rw [mem_opt_singleton hy]
                        exact ne_of_headClass_disjoint _ _ _ _
                          (headClass_tkBand _ _) (headClass_tkSkewSlot _ _) (by decide)
                      · rw [mem_opt_singleton hy]
                        exact ne_of_headClass_disjoint _ _ _ _
                          (headClass_tkBand _ _) (headClass_tkVariantsSlot _) (by decide)
                  · intro x hx y hy
                    rw [mem_opt_singleton hx]
                    simp only [List.mem_append] at hy
                    rcases hy with hy | hy | hy
                    · rw [mem_opt_singleton hy]
                      exact ne_of_headClass_disjoint _ _ _ _
                        (headClass_tkPricing _ _ _) (headClass_tkBand _ _) (by decide)
                    · rw [mem_opt_singleton hy]
                      exact ne_of_headClass_disjoint _ _ _ _
                        (headClass_tkPricing _ _ _) (headClass_tkSkewSlot _ _) (by decide)
                    · rw [mem_opt_singleton hy]
                      exact tkPricing_ne_tkVariantsSlot _ _ _ _
                · intro x hx y hy
                  rw [List.mem_singleton.mp hx]
                  simp only [List.mem_append] at hy
                  rcases hy with hy | hy | hy | hy
                  · rw [mem_opt_singleton hy]
                    exact ne_of_headClass_disjoint _ _ _ _
                      (headClass_tkDiscountSlot _) (headClass_tkPricing _ _ _) (by decide)
                  · rw [mem_opt_singleton hy]
                    exact ne_of_headClass_disjoint _ _ _ _
                      (headClass_tkDiscountSlot _) (headClass_tkBand _ _) (by decide)
                  · rw [mem_opt_singleton hy]
                    exact ne_of_headClass_disjoint _ _ _ _
                      (headClass_tkDiscountSlot _) (headClass_tkSkewSlot _ _) (by decide)
                  · rw [mem_opt_singleton hy]
                    exact ne_of_headClass_disjoint _ _ _ _
                      (headClass_tkDiscountSlot _) (headClass_tkVariantsSlot _) (by decide)
              · intro x hx y hy
                rw [List.mem_singleton.mp hx]
                simp only [List.mem_append] at hy
                rcases hy with hy | hy | hy | hy | hy
                · rw [List.mem_singleton.mp hy]
                  exact tkInStockSlot_ne_tkDiscountSlot _ _
                · rw [mem_opt_singleton hy]
                  exact ne_of_headClass_disjoint _ _ _ _
                    (headClass_tkInStockSlot _) (headClass_tkPricing _ _ _) (by decide)
                · rw [mem_opt_singleton hy]
                  exact ne_of_headClass_disjoint _ _ _ _
                    (headClass_tkInStockSlot _) (headClass_tkBand _ _) (by decide)
                · rw [mem_opt_singleton hy]
                  exact ne_of_headClass_disjoint _ _ _ _
                    (headClass_tkInStockSlot _) (headClass_tkSkewSlot _ _) (by decide)
                · rw [mem_opt_singleton hy]
                  exact ne_of_headClass_disjoint _ _ _ _
                    (headClass_tkInStockSlot _) (headClass_tkVariantsSlot _) (by decide)
            · intro x hx y hy
              rw [mem_opt_singleton hx]
              simp only [List.mem_append] at hy
              rcases hy with hy | hy | hy | hy | hy | hy
              · rw [List.mem_singleton.mp hy]
                exact tkFresh_ne_tkInStockSlot _ _ _
              · rw [List.mem_singleton.mp hy]
                exact tkFresh_ne_tkDiscountSlot _ _ _
              · rw [mem_opt_singleton hy]
                exact ne_of_headClass_disjoint _ _ _ _
                  (headClass_tkFresh _ _) (headClass_tkPricing _ _ _) (by decide)
              · rw [mem_opt_singleton hy]
                exact ne_of_headClass_disjoint _ _ _ _
                  (headClass_tkFresh _ _) (headClass_tkBand _ _) (by decide)
              · rw [mem_opt_singleton hy]
                exact ne_of_headClass_disjoint _ _ _ _
                  (headClass_tkFresh _ _) (headClass_tkSkewSlot _ _) (by decide)
              · rw [mem_opt_singleton hy]
                exact ne_of_headClass_disjoint _ _ _ _
                  (headClass_tkFresh _ _) (headClass_tkVariantsSlot _) (by decide)
          · intro x hx y hy
            rw [mem_opt_singleton hx]
            simp only [List.mem_append] at hy
            rcases hy with hy | hy | hy | hy | hy | hy | hy
            · rw [mem_opt_singleton hy]
              exact ne_of_headClass_disjoint _ _ _ _
                (headClass_tkStrategy _ _ _ _) (headClass_tkFresh _ _) (by decide)
            · rw [List.mem_singleton.mp hy]
              exact ne_of_headClass_disjoint _ _ _ _
                (headClass_tkStrategy _ _ _ _) (headClass_tkInStockSlot _) (by decide)
            · rw [List.mem_singleton.mp hy]
              exact ne_of_headClass_disjoint _ _ _ _
                (headClass_tkStrategy _ _ _ _) (headClass_tkDiscountSlot _) (by decide)
            · rw [mem_opt_singleton hy]
              exact tkStrategy_ne_tkPricing _ _ _ _ _ _ _
            · rw [mem_opt_singleton hy]
              exact ne_of_headClass_disjoint _ _ _ _
                (headClass_tkStrategy _ _ _ _) (headClass_tkBand _ _) (by decide)
            · rw [mem_opt_singleton hy]
              exact ne_of_headClass_disjoint _ _ _ _
                (headClass_tkStrategy _ _ _ _) (headClass_tkSkewSlot _ _) (by decide)
            · rw [mem_opt_singleton hy]
              exact tkStrategy_ne_tkVariantsSlot _ _ _ _ _
        · intro x hx y hy
          rw [mem_opt_singleton hx]
          simp only [List.mem_append] at hy
          rcases hy with hy | hy | hy | hy | hy | hy | hy | hy
          · rw [mem_opt_singleton hy]
            exact ne_of_headClass_disjoint _ _ _ _
              (headClass_tkDecel _) (headClass_tkStrategy _ _ _ _) (by decide)
          · rw [mem_opt_singleton hy]
            exact ne_of_headClass_disjoint _ _ _ _
              (headClass_tkDecel _) (headClass_tkFresh _ _) (by decide)
          · rw [List.mem_singleton.mp hy]
            exact ne_of_headClass_disjoint _ _ _ _
              (headClass_tkDecel _) (headClass_tkInStockSlot _) (by decide)
          · rw [List.mem_singleton.mp hy]
            exact ne_of_headClass_disjoint _ _ _ _
              (headClass_tkDecel _) (headClass_tkDiscountSlot _) (by decide)
          · rw [mem_opt_singleton hy]
            exact ne_of_headClass_disjoint _ _ _ _
              (headClass_tkDecel _) (headClass_tkPricing _ _ _) (by decide)
          · rw [mem_opt_singleton hy]
            exact ne_of_headClass_disjoint _ _ _ _
              (headClass_tkDecel _) (headClass_tkBand _ _) (by decide)
          · rw [mem_opt_singleton hy]
            exact ne_of_headClass_disjoint _ _ _ _
              (headClass_tkDecel _) (headClass_tkSkewSlot _ _) (by decide)
          · rw [mem_opt_singleton hy]
            exact ne_of_headClass_disjoint _ _ _ _
              (headClass_tkDecel _) (headClass_tkVariantsSlot _) (by decide)
      · intro x hx y hy
        rw [mem_opt_singleton hx]
        simp only [List.mem_append] at hy
        rcases hy with hy | hy | hy | hy | hy | hy | hy | hy | hy
        · rw [mem_opt_singleton hy]
          exact tkAccel_ne_tkDecel _ _
        · rw [mem_opt_singleton hy]
          exact ne_of_headClass_disjoint _ _ _ _
            (headClass_tkAccel _) (headClass_tkStrategy _ _ _ _) (by decide)
        · rw [mem_opt_singleton hy]
          exact ne_of_headClass_disjoint _ _ _ _
            (headClass_tkAccel _) (headClass_tkFresh _ _) (by decide)
        · rw [List.mem_singleton.mp hy]
          exact ne_of_headClass_disjoint _ _ _ _
            (headClass_tkAccel _) (headClass_tkInStockSlot _) (by decide)
        · rw [List.mem_singleton.mp hy]
          exact ne_of_headClass_disjoint _ _ _ _
            (headClass_tkAccel _) (headClass_tkDiscountSlot _) (by decide)
        · rw [mem_opt_singleton hy]
          exact ne_of_headClass_disjoint _ _ _ _
            (headClass_tkAccel _) (headClass_tkPricing _ _ _) (by decide)
        · rw [mem_opt_singleton hy]
          exact ne_of_headClass_disjoint _ _ _ _
            (headClass_tkAccel _) (headClass_tkBand _ _) (by decide)
        · rw [mem_opt_singleton hy]
          exact ne_of_headClass_disjoint _ _ _ _
            (headClass_tkAccel _) (headClass_tkSkewSlot _ _) (by decide)
        · rw [mem_opt_singleton hy]
          exact ne_of_headClass_disjoint _ _ _ _
            (headClass_tkAccel _) (headClass_tkVariantsSlot _) (by decide)
    · intro x hx y hy
      rw [List.mem_singleton.mp hx]
      simp only [List.mem_append] at hy
      rcases hy with hy | hy | hy | hy | hy | hy | hy | hy | hy | hy
      · rw [mem_opt_singleton hy]
        exact tkVelocitySlot_ne_tkAccel _ _
      · rw [mem_opt_singleton hy]
        exact tkVelocitySlot_ne_tkDecel _ _
      · rw [mem_opt_singleton hy]
        exact ne_of_headClass_disjoint _ _ _ _
          (headClass_tkVelocitySlot _) (headClass_tkStrategy _ _ _ _) (by decide)
      · rw [mem_opt_singleton hy]
        exact ne_of_headClass_disjoint _ _ _ _
          (headClass_tkVelocitySlot _) (headClass_tkFresh _ _) (by decide)
      · rw [List.mem_singleton.mp hy]
        exact ne_of_headClass_disjoint _ _ _ _
          (headClass_tkVelocitySlot _) (headClass_tkInStockSlot _) (by decide)
      · rw [List.mem_singleton.mp hy]
        exact ne_of_headClass_disjoint _ _ _ _
          (headClass_tkVelocitySlot _) (headClass_tkDiscountSlot _) (by decide)
      · rw [mem_opt_singleton hy]
        exact ne_of_headClass_disjoint _ _ _ _
          (headClass_tkVelocitySlot _) (headClass_tkPricing _ _ _) (by decide)
      · rw [mem_opt_singleton hy]
        exact ne_of_headClass_disjoint _ _ _ _
          (headClass_tkVelocitySlot _) (headClass_tkBand _ _) (by decide)
      · rw [mem_opt_singleton hy]
        exact ne_of_headClass_disjoint _ _ _ _
          (headClass_tkVelocitySlot _) (headClass_tkSkewSlot _ _) (by decide)
      · rw [mem_opt_singleton hy]
        exact tkVelocitySlot_ne_tkVariantsSlot _ _

/-! ## No duplicate confidence notes -/

theorem buildNotes_nodup (N : NParams) : (buildNotes N).Nodup := by
  unfold buildNotes
  by_cases h0 : N.total = 0
  case pos =>
    rw [if_neg (fun hc => hc.1 h0), if_neg (fun hc => hc.1 h0), if_neg (fun hc => hc.1 h0),
      if_neg (fun hc => hc.1 h0), if_neg (fun hc => hc.1 h0), if_pos h0]
    simp only [List.nil_append]
    apply nodup_append_of
    · exact opt_nodup _
    · simp
    · intro x hx y hy
      rw [mem_opt_singleton hx, List.mem_singleton.mp hy]
      exact ne_of_headClass_disjoint _ _ _ _
        (headClass_cnBulk _ _ _) headClass_cnNoProducts (by decide)
  case neg =>
    rw [if_neg h0]
    simp only [List.append_assoc]
    apply nodup_append_of
    · exact opt_nodup _
    · apply nodup_append_of
      · exact opt_nodup _
      · apply nodup_append_of
        · exact opt_nodup _
        · apply nodup_append_of
          · exact opt_nodup _
          · apply nodup_append_of
            · exact opt_nodup _
            · apply nodup_append_of
              · exact opt_nodup _
              · refine List.nodup_cons.mpr ⟨?_, List.nodup_cons.mpr ⟨?_,
                  List.nodup_cons.mpr ⟨?_, List.nodup_cons.mpr ⟨?_,
                  List.nodup_singleton _⟩⟩⟩⟩
                · intro hmem
                  simp only [List.mem_cons, List.mem_singleton, List.not_mem_nil, or_false] at hmem
                  rcases hmem with h1 | h1 | h1 | h1
                  · exact (ne_of_headClass_disjoint _ _ _ _ headClass_cnProvenance
                      (headClass_cnDateCoverage _ _) (by decide)) h1
                  · exact (ne_of_headClass_disjoint _ _ _ _ headClass_cnProvenance
                      (headClass_cnPricingCoverage _) (by decide)) h1
                  · exact (ne_of_headClass_disjoint _ _ _ _ headClass_cnProvenance
                      (headClass_cnDiscountCoverage _) (by decide)) h1
                  · exact (ne_of_headClass_disjoint _ _ _ _ headClass_cnProvenance
                      headClass_cnHtml404 (by decide)) h1
                · intro hmem
                  simp only [List.mem_cons, List.mem_singleton, List.not_mem_nil, or_false] at hmem
                  rcases hmem with h1 | h1 | h1
                  · exact (ne_of_headClass_disjoint _ _ _ _ (headClass_cnDateCoverage _ _)
                      (headClass_cnPricingCoverage _) (by decide)) h1
                  · exact (cnDateCoverage_ne_cnDiscountCoverage _ _ _) h1
                  · exact (ne_of_headClass_disjoint _ _ _ _ (headClass_cnDateCoverage _ _)
                      headClass_cnHtml404 (by decide)) h1
                · intro hmem
                  simp only [List.mem_cons, List.mem_singleton, List.not_mem_nil, or_false] at hmem
                  rcases hmem with h1 | h1
                  · exact (ne_of_headClass_disjoint _ _ _ _ (headClass_cnPricingCoverage _)
                      (headClass_cnDiscountCoverage _) (by decide)) h1
                  · exact (ne_of_headClass_disjoint _ _ _ _ (headClass_cnPricingCoverage _)
                      headClass_cnHtml404 (by decide)) h1
                · intro hmem
                  simp only [List.mem_cons, List.not_mem_nil, or_false] at hmem
                  exact (ne_of_headClass_disjoint _ _ _ _ (headClass_cnDiscountCoverage _)
                    headClass_cnHtml404 (by decide)) hmem
              · intro x hx y hy
                rw [mem_opt_singleton hx]
                simp only [List.mem_cons, List.not_mem_nil, or_false] at hy
                rcases hy with hy | hy | hy | hy | hy
                · rw [hy]
                  exact ne_of_headClass_disjoint _ _ _ _ (headClass_cnBulk _ _ _)
                    headClass_cnProvenance (by decide)
                · rw [hy]
                  exact ne_of_headClass_disjoint _ _ _ _ (headClass_cnBulk _ _ _)
                    (headClass_cnDateCoverage _ _) (by decide)
                · rw [hy]
                  exact ne_of_headClass_disjoint _ _ _ _ (headClass_cnBulk _ _ _)
                    (headClass_cnPricingCoverage _) (by decide)
                · rw [hy]
                  exact ne_of_headClass_disjoint _ _ _ _ (headClass_cnBulk _ _ _)
                    (headClass_cnDiscountCoverage _) (by decide)
                · rw [hy]
                  exact ne_of_headClass_disjoint _ _ _ _ (headClass_cnBulk _ _ _)
                    headClass_cnHtml404 (by decide)
            · intro x hx y hy
              rw [mem_opt_singleton hx]
              simp only [List.mem_append, List.mem_cons, List.not_mem_nil, or_false] at hy
              rcases hy with hy | hy | hy | hy | hy | hy
              · rw [mem_opt_singleton hy]
                exact ne_of_headClass_disjoint _ _ _ _ headClass_cnLowDiscount
                  (headClass_cnBulk _ _ _) (by decide)
              · rw [hy]
                exact ne_of_headClass_disjoint _ _ _ _ headClass_cnLowDiscount
                  headClass_cnProvenance (by decide)
              · rw [hy]
                exact ne_of_headClass_disjoint _ _ _ _ headClass_cnLowDiscount
                  (headClass_cnDateCoverage _ _) (by decide)
              · rw [hy]
                exact ne_of_headClass_disjoint _ _ _ _ headClass_cnLowDiscount
                  (headClass_cnPricingCoverage _) (by decide)
              · rw [hy]
                exact ne_of_headClass_disjoint _ _ _ _ headClass_cnLowDiscount
                  (headClass_cnDiscountCoverage _) (by decide)
              · rw [hy]
                exact ne_of_headClass_disjoint _ _ _ _ headClass_cnLowDiscount
                  headClass_cnHtml404 (by decide)
          · intro x hx y hy
            rw [mem_opt_singleton hx]
            simp only [List.mem_append, List.mem_cons, List.not_mem_nil, or_false] at hy
            rcases hy with hy | hy | hy | hy | hy | hy | hy
            · rw [mem_opt_singleton hy]
              exact ne_of_headClass_disjoint _ _ _ _ (headClass_cnUpdatedMissing _)
                headClass_cnLowDiscount (by decide)
            · rw [mem_opt_singleton hy]
              exact cnUpdatedMissing_ne_cnBulk _ _ _ _
            · rw [hy]
              exact ne_of_headClass_disjoint _ _ _ _ (headClass_cnUpdatedMissing _)
                headClass_cnProvenance (by decide)
            · rw [hy]
              exact ne_of_headClass_disjoint _ _ _ _ (headClass_cnUpdatedMissing _)
                (headClass_cnDateCoverage _ _) (by decide)
            · rw [hy]
              exact ne_of_headClass_disjoint _ _ _ _ (headClass_cnUpdatedMissing _)
                (headClass_cnPricingCoverage _) (by decide)
            · rw [hy]
              exact ne_of_headClass_disjoint _ _ _ _ (headClass_cnUpdatedMissing _)
                (headClass_cnDiscountCoverage _) (by decide)
            · rw [hy]
              exact ne_of_headClass_disjoint _ _ _ _ (headClass_cnUpdatedMissing _)
                headClass_cnHtml404 (by decide)
        · intro x hx y hy
          rw [mem_opt_singleton hx]
          simp only [List.mem_append, List.mem_cons, List.not_mem_nil, or_false] at hy
          rcases hy with hy | hy | hy | hy | hy | hy | hy | hy
          · rw [mem_opt_singleton hy]
            exact ne_of_headClass_disjoint _ _ _ _ (headClass_cnCreatedMissing _)
              (headClass_cnUpdatedMissing _) (by decide)
          · rw [mem_opt_singleton hy]
            exact ne_of_headClass_disjoint _ _ _ _ (headClass_cnCreatedMissing _)
              headClass_cnLowDiscount (by decide)
          · rw [mem_opt_singleton hy]
            exact ne_of_headClass_disjoint _ _ _ _ (headClass_cnCreatedMissing _)
              (headClass_cnBulk _ _ _) (by decide)
          · rw [hy]
            exact ne_of_headClass_disjoint _ _ _ _ (headClass_cnCreatedMissing _)
              headClass_cnProvenance (by decide)
          · rw [hy]
            exact ne_of_headClass_disjoint _ _ _ _ (headClass_cnCreatedMissing _)
              (headClass_cnDateCoverage _ _) (by decide)
          · rw [hy]
            exact ne_of_headClass_disjoint _ _ _ _ (headClass_cnCreatedMissing _)
              (headClass_cnPricingCoverage _) (by decide)
          · rw [hy]
            exact ne_of_headClass_disjoint _ _ _ _ (headClass_cnCreatedMissing _)
              (headClass_cnDiscountCoverage _) (by decide)
          · rw [hy]
            exact ne_of_headClass_disjoint _ _ _ _ (headClass_cnCreatedMissing _)
              headClass_cnHtml404 (by decide)
      · intro x hx y hy
        rw [mem_opt_singleton hx]
        simp only [List.mem_append, List.mem_cons, List.not_mem_nil, or_false] at hy
        rcases hy with hy | hy | hy | hy | hy | hy | hy | hy | hy
        · rw [mem_opt_singleton hy]
          exact ne_of_headClass_disjoint _ _ _ _ headClass_cnNoPricing
            (headClass_cnCreatedMissing _) (by decide)
        · rw [mem_opt_singleton hy]
          exact ne_of_headClass_disjoint _ _ _ _ headClass_cnNoPricing
            (headClass_cnUpdatedMissing _) (by decide)
        · rw [mem_opt_singleton hy]
          exact ne_of_headClass_disjoint _ _ _ _ headClass_cnNoPricing
            headClass_cnLowDiscount (by decide)
        · rw [mem_opt_singleton hy]
          exact ne_of_headClass_disjoint _ _ _ _ headClass_cnNoPricing
            (headClass_cnBulk _ _ _) (by decide)
        · rw [hy]
          exact ne_of_headClass_disjoint _ _ _ _ headClass_cnNoPricing
            headClass_cnProvenance (by decide)
        · rw [hy]
          exact ne_of_headClass_disjoint _ _ _ _ headClass_cnNoPricing
            (headClass_cnDateCoverage _ _) (by decide)
        · rw [hy]
          exact ne_of_headClass_disjoint _ _ _ _ headClass_cnNoPricing
            (headClass_cnPricingCoverage _) (by decide)
        · rw [hy]
          exact ne_of_headClass_disjoint _ _ _ _ headClass_cnNoPricing
            (headClass_cnDiscountCoverage _) (by decide)
        · rw [hy]
          exact ne_of_headClass_disjoint _ _ _ _ headClass_cnNoPricing
            headClass_cnHtml404 (by decide)
    · intro x hx y hy
      rw [mem_opt_singleton hx]
      simp only [List.mem_append, List.mem_cons, List.not_mem_nil, or_false] at hy
      rcases hy with hy | hy | hy | hy | hy | hy | hy | hy | hy | hy
      · rw [mem_opt_singleton hy]
        exact ne_of_headClass_disjoint _ _ _ _ (headClass_cnZeroPrice _)
          headClass_cnNoPricing (by decide)
      · rw [mem_opt_singleton hy]
        exact ne_of_headClass_disjoint _ _ _ _ (headClass_cnZeroPrice _)
          (headClass_cnCreatedMissing _) (by decide)
      · rw [mem_opt_singleton hy]
        exact ne_of_headClass_disjoint _ _ _ _ (headClass_cnZeroPrice _)
          (headClass_cnUpdatedMissing _) (by decide)
      · rw [mem_opt_singleton hy]
        exact ne_of_headClass_disjoint _ _ _ _ (headClass_cnZeroPrice _)
          headClass_cnLowDiscount (by decide)
      · rw [mem_opt_singleton hy]
        exact ne_of_headClass_disjoint _ _ _ _ (headClass_cnZeroPrice _)
          (headClass_cnBulk _ _ _) (by decide)
      · rw [hy]
        exact ne_of_headClass_disjoint _ _ _ _ (headClass_cnZeroPrice _)
          headClass_cnProvenance (by decide)
      · rw [hy]
        exact ne_of_headClass_disjoint _ _ _ _ (headClass_cnZeroPrice _)
          (headClass_cnDateCoverage _ _) (by decide)
      · rw [hy]
        exact ne_of_headClass_disjoint _ _ _ _ (headClass_cnZeroPrice _)
          (headClass_cnPricingCoverage _) (by decide)
      · rw [hy]
        exact ne_of_headClass_disjoint _ _ _ _ (headClass_cnZeroPrice _)
          (headClass_cnDiscountCoverage _) (by decide)
      · rw [hy]
        exact ne_of_headClass_disjoint _ _ _ _ (headClass_cnZeroPrice _)
          headClass_cnHtml404 (by decide)

/-- Claim C7: for every Record Set (equivalently, for every combination of the
interpolated values computed from one), the assembled report's takeaways
sequence and its confidence_notes sequence — including the caller's
guarded-append of the fixed provenance notes — contain no duplicate strings:
a string exactly equal to one already present is never added. -/
theorem takeaways_and_confidence_notes_nodup :
    (∀ P : TParams, (buildTakeaways P).Nodup) ∧ (∀ N : NParams, (finalNotes N).Nodup) :=
  ⟨buildTakeaways_nodup, fun N => foldl_addUnique_nodup _ _ (buildNotes_nodup N)⟩
